import Mathlib

/-!
Verification of the path-synthesis and cartographic-rendering pipeline of the
Paths repository (`src/app/create/maputils.ts`, the create page, and the
artwork-preview component) against its natural-language specification.

The TypeScript source is shallowly embedded:
* exact-arithmetic components (projection, bbox filter, serializer, document
  composition) are embedded over `ℚ`, so every definition is executable;
* the stochastic path humanizer is embedded over `ℝ` (`Real.sqrt`, `Real.sin`,
  `Real.pi`), with the nine `Math.random()` draws of one segment passed
  explicitly as a `Rand` record in call order;
* claims about division by zero and NaN propagation are settled over `JSNum`,
  an IEEE-754-style value domain (finite rationals, signed infinities, NaN)
  mirroring JavaScript number semantics for the operations the code performs.
-/

namespace Paths

/-- Geographic anchor `{lng, lat}` (source `GeoAnchor` / coordinate pair),
polymorphic over the number domain used by each embedding. -/
structure GeoAnchor (α : Type) where
  lng : α
  lat : α
deriving DecidableEq, Repr

/-- Bounding box, source type `BBox` in `maputils.ts`. -/
structure BBox (α : Type) where
  minLng : α
  maxLng : α
  minLat : α
  maxLat : α
deriving DecidableEq, Repr

/-- Projection parameters, source type `ProjectionParams` in `maputils.ts`. -/
structure ProjectionParams (α : Type) where
  bbox : BBox α
  width : α
  height : α
  offsetX : α
  offsetY : α
  scale : α
deriving DecidableEq, Repr

/-- Result of `projectToSVG`: a 2D canvas point `{x, y}`. -/
structure SVGPoint (α : Type) where
  x : α
  y : α
deriving DecidableEq, Repr

/-- Embedding of `projectToSVG` (maputils.ts lines 45-59) over exact rational
arithmetic. Valid for the non-degenerate bounding boxes the spec's projection
claims quantify over; the degenerate (zero-span) case is treated separately
over `JSNum` below. -/
def projectToSVG (lng lat : ℚ) (params : ProjectionParams ℚ) : SVGPoint ℚ :=
  let x := (lng - params.bbox.minLng) / (params.bbox.maxLng - params.bbox.minLng)
  let y := (params.bbox.maxLat - lat) / (params.bbox.maxLat - params.bbox.minLat)
  { x := params.offsetX + x * params.width * params.scale
    y := params.offsetY + y * params.height * params.scale }

/-- Embedding of `calculateProjection` (maputils.ts lines 61-88) over exact
rational arithmetic, local variables kept as `let`s in source order. -/
def calculateProjection (bbox : BBox ℚ) (canvasWidth canvasHeight margin : ℚ) :
    ProjectionParams ℚ :=
  let availableWidth := canvasWidth - margin * 2
  let availableHeight := canvasHeight - margin * 2
  let geoWidth := bbox.maxLng - bbox.minLng
  let geoHeight := bbox.maxLat - bbox.minLat
  let scaleX := availableWidth / geoWidth
  let scaleY := availableHeight / geoHeight
  let scale := min scaleX scaleY
  let offsetX := margin + (availableWidth - geoWidth * scale) / 2
  let offsetY := margin + (availableHeight - geoHeight * scale) / 2
  { bbox := bbox
    width := geoWidth
    height := geoHeight
    offsetX := offsetX
    offsetY := offsetY
    scale := scale }

/-- C9: Projection containment — for every non-degenerate bounding box and
every canvas with `canvasWidth, canvasHeight > 2*margin`, `projectToSVG`
applied with the params computed by `calculateProjection` maps each of the
four bbox corners into `[margin, canvasWidth - margin] ×
[margin, canvasHeight - margin]` (exactly, in exact arithmetic, hence within
any floating-point tolerance). -/
theorem projection_containment (bbox : BBox ℚ) (W H m : ℚ)
    (hlng : bbox.minLng < bbox.maxLng) (hlat : bbox.minLat < bbox.maxLat)
    (hW : 2 * m < W) (hH : 2 * m < H) (lng lat : ℚ)
    (hc1 : lng = bbox.minLng ∨ lng = bbox.maxLng)
    (hc2 : lat = bbox.minLat ∨ lat = bbox.maxLat) :
    m ≤ (projectToSVG lng lat (calculateProjection bbox W H m)).x ∧
    (projectToSVG lng lat (calculateProjection bbox W H m)).x ≤ W - m ∧
    m ≤ (projectToSVG lng lat (calculateProjection bbox W H m)).y ∧
    (projectToSVG lng lat (calculateProjection bbox W H m)).y ≤ H - m := by
  have hgw : (0:ℚ) < bbox.maxLng - bbox.minLng := by linarith
  have hgh : (0:ℚ) < bbox.maxLat - bbox.minLat := by linarith
  have haw : (0:ℚ) < W - m * 2 := by linarith
  have hah : (0:ℚ) < H - m * 2 := by linarith
  have hne1 : bbox.maxLng - bbox.minLng ≠ 0 := ne_of_gt hgw
  have hne2 : bbox.maxLat - bbox.minLat ≠ 0 := ne_of_gt hgh
  have hsc0 : 0 < min ((W - m * 2) / (bbox.maxLng - bbox.minLng))
      ((H - m * 2) / (bbox.maxLat - bbox.minLat)) :=
    lt_min (div_pos haw hgw) (div_pos hah hgh)
  have hscw : (bbox.maxLng - bbox.minLng) *
      min ((W - m * 2) / (bbox.maxLng - bbox.minLng))
        ((H - m * 2) / (bbox.maxLat - bbox.minLat)) ≤ W - m * 2 := by
    calc (bbox.maxLng - bbox.minLng) * min _ _
        ≤ (bbox.maxLng - bbox.minLng) * ((W - m * 2) / (bbox.maxLng - bbox.minLng)) :=
          mul_le_mul_of_nonneg_left (min_le_left _ _) hgw.le
      _ = W - m * 2 := by field_simp
  have hsch : (bbox.maxLat - bbox.minLat) *
      min ((W - m * 2) / (bbox.maxLng - bbox.minLng))
        ((H - m * 2) / (bbox.maxLat - bbox.minLat)) ≤ H - m * 2 := by
    calc (bbox.maxLat - bbox.minLat) * min _ _
        ≤ (bbox.maxLat - bbox.minLat) * ((H - m * 2) / (bbox.maxLat - bbox.minLat)) :=
          mul_le_mul_of_nonneg_left (min_le_right _ _) hgh.le
      _ = H - m * 2 := by field_simp
  have hgwsc := mul_pos hgw hsc0
  have hghsc := mul_pos hgh hsc0
  simp only [projectToSVG, calculateProjection]
  rcases hc1 with h1 | h1 <;> rcases hc2 with h2 | h2 <;> subst h1 <;> subst h2 <;>
    simp only [sub_self, zero_div, div_self hne1, div_self hne2, zero_mul, one_mul,
      add_zero] <;>
    refine ⟨?_, ?_, ?_, ?_⟩ <;>
    linarith [hscw, hsch, hsc0, hgwsc, hghsc]

/-- Witness for C9 at a concrete non-degenerate input: bbox `0..10 × 0..10`,
canvas `100 × 100`, margin `10`, corner `(minLng, minLat)`. -/
theorem projection_containment_witness :
    ((0:ℚ) < 10 - 0) ∧ ((0:ℚ) < 10 - 0) ∧ ((2 * 10 : ℚ) < 100) ∧
    (10 ≤ (projectToSVG 0 0 (calculateProjection ⟨0, 10, 0, 10⟩ 100 100 10)).x ∧
     (projectToSVG 0 0 (calculateProjection ⟨0, 10, 0, 10⟩ 100 100 10)).x ≤ 100 - 10 ∧
     10 ≤ (projectToSVG 0 0 (calculateProjection ⟨0, 10, 0, 10⟩ 100 100 10)).y ∧
     (projectToSVG 0 0 (calculateProjection ⟨0, 10, 0, 10⟩ 100 100 10)).y ≤ 100 - 10) :=
  ⟨by norm_num, by norm_num, by norm_num,
   projection_containment ⟨0, 10, 0, 10⟩ 100 100 10 (by norm_num) (by norm_num)
     (by norm_num) (by norm_num) 0 0 (Or.inl rfl) (Or.inl rfl)⟩

/-! ## Geometry-to-path serializer (maputils.ts lines 187-231) -/

/-- JavaScript `Number.prototype.toFixed(2)` on an exact rational: round to
the nearest multiple of 1/100 (ties away from zero) and format with exactly
two decimal digits. The digit text never matters to the claims below; only
the `M`/`L` command structure does. -/
def toFixed2 (q : ℚ) : String :=
  let n : ℤ := if q < 0 then -⌊((-q) * 100 + 1/2 : ℚ)⌋ else ⌊(q * 100 + 1/2 : ℚ)⌋
  let sign := if n < 0 then "-" else ""
  let a := n.natAbs
  sign ++ toString (a / 100) ++ "." ++ (if a % 100 < 10 then "0" else "") ++ toString (a % 100)

/-- Loop body of `lineToPath` (maputils.ts lines 216-228): walks the
coordinates with the mutable `path` accumulator and `started` flag of the
source. A coordinate with `|lng| > 180` or `|lat| > 90` is skipped; note the
source never resets `started` after a skip. -/
def lineToPathGo (projection : ProjectionParams ℚ) :
    List (ℚ × ℚ) → Bool → String → String
  | [], _, path => path
  | coord :: rest, started, path =>
    if |coord.1| > 180 ∨ |coord.2| > 90 then
      lineToPathGo projection rest started path
    else
      let pt := projectToSVG coord.1 coord.2 projection
      if started = false then
        lineToPathGo projection rest true
          (path ++ "M " ++ toFixed2 pt.x ++ "," ++ toFixed2 pt.y)
      else
        lineToPathGo projection rest true
          (path ++ " L " ++ toFixed2 pt.x ++ "," ++ toFixed2 pt.y)

/-- Embedding of `lineToPath` (maputils.ts lines 210-231). Coordinates are
modelled as `lng × lat` pairs (the source destructures `const [lng, lat]`). -/
def lineToPath (coordinates : List (ℚ × ℚ)) (projection : ProjectionParams ℚ) : String :=
  if coordinates.isEmpty then "" else lineToPathGo projection coordinates false ""

/-- Embedding of `polygonToPath` (maputils.ts lines 206-208):
`rings.map(lineToPath).join(' ')`. -/
def polygonToPath (rings : List (List (ℚ × ℚ))) (projection : ProjectionParams ℚ) : String :=
  String.intercalate " " (rings.map (fun ring => lineToPath ring projection))

/-- GeoJSON geometry as `geoJSONToSVGPath` discriminates it: the four kinds
it serializes, plus a catch-all for any other `type` tag (which the source
leaves unserialized, yielding an empty path string). -/
inductive Geometry where
  | polygon (coordinates : List (List (ℚ × ℚ)))
  | multiPolygon (coordinates : List (List (List (ℚ × ℚ))))
  | lineString (coordinates : List (ℚ × ℚ))
  | multiLineString (coordinates : List (List (ℚ × ℚ)))
  | otherType
deriving DecidableEq, Repr

/-- A GeoJSON feature for the serializer/composer: `geometry` is `none` when
the source's `!feature?.geometry` guard fires. -/
structure Feature where
  geometry : Option Geometry
deriving DecidableEq, Repr

/-- Embedding of `geoJSONToSVGPath` (maputils.ts lines 187-204):
type-switched serialization, then `paths.filter(Boolean).join(' ')`. -/
def geoJSONToSVGPath (feature : Feature) (projection : ProjectionParams ℚ) : String :=
  match feature.geometry with
  | none => ""
  | some g =>
    let paths : List String :=
      match g with
      | .polygon coordinates => [polygonToPath coordinates projection]
      | .multiPolygon coordinates =>
          coordinates.map (fun poly => polygonToPath poly projection)
      | .lineString coordinates => [lineToPath coordinates projection]
      | .multiLineString coordinates =>
          coordinates.map (fun line => lineToPath line projection)
      | .otherType => []
    String.intercalate " " (paths.filter (fun p => p ≠ ""))

/-- C2 counterexample: the LineString `[(0,0), (5,95), (10,10)]` — one
interior coordinate with `lat = 95` — serialized with the projection for
bbox `0..10 × 0..10` on a `100 × 100` canvas yields a single-subpath string
`M … L …` with exactly one `M`, not the two `M` starts the claim requires:
the point after the skipped coordinate is joined with `L`. -/
theorem serializer_gap_counterexample :
    lineToPath [(0, 0), (5, 95), (10, 10)]
        (calculateProjection ⟨0, 10, 0, 10⟩ 100 100 0) =
      "M 0.00,100.00 L 100.00,0.00" ∧
    ¬ ((lineToPath [(0, 0), (5, 95), (10, 10)]
        (calculateProjection ⟨0, 10, 0, 10⟩ 100 100 0)).toList.count 'M' = 2) := by
  have h : lineToPath [((0:ℚ), (0:ℚ)), (5, 95), (10, 10)]
      (calculateProjection ⟨0, 10, 0, 10⟩ 100 100 0) = "M 0.00,100.00 L 100.00,0.00" := by
    norm_num [lineToPath, lineToPathGo, calculateProjection, projectToSVG, toFixed2]
    rfl
  refine ⟨h, ?_⟩
  rw [h]
  decide

/-- C2 (corrected): a coordinate with `|lng| > 180` or `|lat| > 90` is
skipped (never projected), but the next valid coordinate after the gap is
joined to the previous valid point with an `L` command — the `started` flag
is never reset — so the output is identical to serializing the list with the
invalid coordinate removed: a single `M` start, no second subpath. -/
theorem serializer_gap_behavior (projection : ProjectionParams ℚ)
    (c1 c2 c3 : ℚ × ℚ)
    (h1 : ¬(|c1.1| > 180 ∨ |c1.2| > 90))
    (h2 : |c2.1| > 180 ∨ |c2.2| > 90)
    (h3 : ¬(|c3.1| > 180 ∨ |c3.2| > 90)) :
    lineToPath [c1, c2, c3] projection = lineToPath [c1, c3] projection := by
  simp only [lineToPath, List.isEmpty, lineToPathGo, if_neg h1, if_pos h2, if_neg h3]

/-- Witness for C2's corrected statement at the concrete counterexample
input. -/
theorem serializer_gap_behavior_witness :
    (¬(|(0:ℚ)| > 180 ∨ |(0:ℚ)| > 90)) ∧ (|(5:ℚ)| > 180 ∨ |(95:ℚ)| > 90) ∧
    (¬(|(10:ℚ)| > 180 ∨ |(10:ℚ)| > 90)) ∧
    lineToPath [(0, 0), (5, 95), (10, 10)]
        (calculateProjection ⟨0, 10, 0, 10⟩ 100 100 0) =
      lineToPath [(0, 0), (10, 10)] (calculateProjection ⟨0, 10, 0, 10⟩ 100 100 0) :=
  ⟨by norm_num, by norm_num, by norm_num,
   serializer_gap_behavior (calculateProjection ⟨0, 10, 0, 10⟩ 100 100 0)
     (0, 0) (5, 95) (10, 10) (by norm_num) (by norm_num) (by norm_num)⟩

/-! ## BBox filtering (maputils.ts lines 146-181) -/

/-- A JSON coordinate structure as the filter walks it: a number or an
arbitrarily nested array. This is what `coordsInBBox` receives — the source
treats `geometry.coordinates` as fully dynamic. -/
inductive JVal where
  | num (q : ℚ)
  | arr (l : List JVal)

mutual
/-- Embedding of `coordsInBBox` (maputils.ts lines 168-181). When
`coords[0]` is a number the source compares `coords[0]`/`coords[1]` against
the box and never recurses; a non-numeric `coords[1]` (e.g. `undefined` for
a one-element array) makes the JS comparison false, matching the middle
case. Otherwise it is `coords.some(c => coordsInBBox(c, bbox))`, unfolded
here as `anyCoordsInBBox` for structural recursion. -/
def coordsInBBox : JVal → BBox ℚ → Bool
  | .num _, _ => false
  | .arr (.num a :: .num b :: _), bbox =>
      a ≥ bbox.minLng && a ≤ bbox.maxLng && b ≥ bbox.minLat && b ≤ bbox.maxLat
  | .arr (.num _ :: _), _ => false
  | .arr l, bbox => anyCoordsInBBox l bbox

/-- The `coords.some(...)` recursion of `coordsInBBox`. -/
def anyCoordsInBBox : List JVal → BBox ℚ → Bool
  | [], _ => false
  | c :: cs, bbox => coordsInBBox c bbox || anyCoordsInBBox cs bbox
end

mutual
/-- The coordinate pairs `coordsInBBox` can test, read off the code's own
discriminator: an array whose first element is a number is a single
coordinate candidate — its pair being the first two elements when the
second is also a number, and nothing otherwise (no recursion happens there);
any other array contributes the pairs of its elements. -/
def codePairs : JVal → List (ℚ × ℚ)
  | .num _ => []
  | .arr (.num a :: .num b :: _) => [(a, b)]
  | .arr (.num _ :: _) => []
  | .arr l => codePairsList l

/-- Pairs of a list of nested structures, elementwise. -/
def codePairsList : List JVal → List (ℚ × ℚ)
  | [] => []
  | c :: cs => codePairs c ++ codePairsList cs
end

mutual
/-- Coordinate pairs per the spec's words (§4.2): "a 2-element numeric array
is a coordinate; otherwise, recurse into every element and any-match". This
is the claim-side discriminator C8 is compared against. -/
def specPairs : JVal → List (ℚ × ℚ)
  | .num _ => []
  | .arr [.num a, .num b] => [(a, b)]
  | .arr l => specPairsList l

/-- Pairs of a list of nested structures, per the spec's discriminator. -/
def specPairsList : List JVal → List (ℚ × ℚ)
  | [] => []
  | c :: cs => specPairs c ++ specPairsList cs
end

/-- A pair lies inside a bounding box (the comparison `coordsInBBox`
performs). -/
def pairInBBox (p : ℚ × ℚ) (bbox : BBox ℚ) : Prop :=
  bbox.minLng ≤ p.1 ∧ p.1 ≤ bbox.maxLng ∧ bbox.minLat ≤ p.2 ∧ p.2 ≤ bbox.maxLat

instance (p : ℚ × ℚ) (bbox : BBox ℚ) : Decidable (pairInBBox p bbox) := by
  unfold pairInBBox; infer_instance

/-- Geometry as the filter sees it: only `coordinates` matters, `none`
modelling an absent/null `coordinates` field (the `!geometry?.coordinates`
guard). -/
structure GeometryJ where
  coordinates : Option JVal

/-- Feature as the filter sees it: `none` geometry models the
`f?.geometry` guard firing. -/
structure FeatureJ where
  geometry : Option GeometryJ

/-- A feature collection over any feature representation. -/
structure FeatureCollection (F : Type) where
  features : List F
deriving DecidableEq

/-- Source constant `EMPTY`: `{type: 'FeatureCollection', features: []}`. -/
def EMPTY {F : Type} : FeatureCollection F := ⟨[]⟩

/-- Embedding of `intersects` (maputils.ts lines 163-166). -/
def intersects (geometry : Option GeometryJ) (bbox : BBox ℚ) : Bool :=
  match geometry with
  | none => false
  | some g =>
    match g.coordinates with
    | none => false
    | some c => coordsInBBox c bbox

/-- The expanded box `filterByBBox` builds: ±5 degrees on every side
(maputils.ts lines 149-154). -/
def expandBBox (bbox : BBox ℚ) : BBox ℚ :=
  ⟨bbox.minLng - 5, bbox.maxLng + 5, bbox.minLat - 5, bbox.maxLat + 5⟩

/-- A fetched-and-parsed response body as `filterByBBox` receives it:
either an object with a `features` array, or anything else (the
`!geojson?.features` guard). -/
inductive FetchBody where
  | valid (fc : FeatureCollection FeatureJ)
  | malformed

/-- Embedding of `filterByBBox` (maputils.ts lines 146-161). -/
def filterByBBox (geojson : FetchBody) (bbox : BBox ℚ) : FeatureCollection FeatureJ :=
  match geojson with
  | .malformed => EMPTY
  | .valid fc =>
    let expanded := expandBBox bbox
    ⟨fc.features.filter (fun f => intersects f.geometry expanded)⟩

/-! ## Reference data loader (maputils.ts lines 94-140) -/

/-- The five-layer aggregate, source type `GeographicData`, polymorphic in
the feature representation (dynamic for the loader/filter, typed for the
serializer/composer). -/
structure GeographicData (F : Type) where
  coastlines : FeatureCollection F
  rivers : FeatureCollection F
  lakes : FeatureCollection F
  land : FeatureCollection F
  borders : FeatureCollection F
deriving DecidableEq

/-- Embedding of `fetchViaProxy` (maputils.ts lines 130-140): `none` models
a request that threw (network failure or non-OK status — both reject the
promise); a delivered body is bbox-filtered. -/
def fetchViaProxy (response : Option FetchBody) (bbox : BBox ℚ) :
    Option (FeatureCollection FeatureJ) :=
  response.map (fun body => filterByBBox body bbox)

/-- Embedding of `fetchNaturalEarthData` (maputils.ts lines 94-128):
`Promise.allSettled` over the five dataset requests (index order of the
`datasets` array: coastline, rivers, lakes, land, borders), each rejected
request replaced by `EMPTY` via the `get` helper. -/
def fetchNaturalEarthData (results : Fin 5 → Option FetchBody) (bbox : BBox ℚ) :
    GeographicData FeatureJ :=
  let get := fun i => (fetchViaProxy (results i) bbox).getD EMPTY
  { coastlines := get 0
    rivers := get 1
    lakes := get 2
    land := get 3
    borders := get 4 }

/-- What one settled request contributes: the bbox-filtered body when it
delivered one, `EMPTY` when it rejected. -/
def settledLayer (response : Option FetchBody) (bbox : BBox ℚ) :
    FeatureCollection FeatureJ :=
  match response with
  | some body => filterByBBox body bbox
  | none => EMPTY

/-- C7: Loader partial-failure policy — for every bounding box and every
combination of per-layer outcomes, each of the five layer keys of the result
is exactly the bbox-filtered body when that layer's request delivered one
and `EMPTY` when it rejected; in particular every key is present and
non-null, a malformed body degrades to `EMPTY` inside `filterByBBox`, and
each layer's value depends on nothing but that layer's own outcome, so no
single failure disturbs the others or the aggregate. -/
theorem loader_partial_failure (results : Fin 5 → Option FetchBody) (bbox : BBox ℚ) :
    (fetchNaturalEarthData results bbox).coastlines = settledLayer (results 0) bbox ∧
    (fetchNaturalEarthData results bbox).rivers = settledLayer (results 1) bbox ∧
    (fetchNaturalEarthData results bbox).lakes = settledLayer (results 2) bbox ∧
    (fetchNaturalEarthData results bbox).land = settledLayer (results 3) bbox ∧
    (fetchNaturalEarthData results bbox).borders = settledLayer (results 4) bbox ∧
    filterByBBox FetchBody.malformed bbox = EMPTY := by
  refine ⟨?_, ?_, ?_, ?_, ?_, rfl⟩ <;>
    simp only [fetchNaturalEarthData, fetchViaProxy, settledLayer] <;>
    rcases results _ with _ | body <;> simp

/-- A pair lies strictly inside a bounding box. -/
def pairStrictlyInBBox (p : ℚ × ℚ) (bbox : BBox ℚ) : Prop :=
  bbox.minLng < p.1 ∧ p.1 < bbox.maxLng ∧ bbox.minLat < p.2 ∧ p.2 < bbox.maxLat

/-- The filter's recursive membership test succeeds exactly when some
coordinate pair, read off by the code's own discriminator, lies in the box. -/
theorem coordsInBBox_iff (c : JVal) (bbox : BBox ℚ) :
    coordsInBBox c bbox = true ↔ ∃ p ∈ codePairs c, pairInBBox p bbox := by
  refine coordsInBBox.induct
    (fun c bbox => coordsInBBox c bbox = true ↔ ∃ p ∈ codePairs c, pairInBBox p bbox)
    (fun l bbox => anyCoordsInBBox l bbox = true ↔ ∃ p ∈ codePairsList l, pairInBBox p bbox)
    ?_ ?_ ?_ ?_ ?_ ?_ c bbox
  · intro q bb
    simp [coordsInBBox, codePairs]
  · intro a b tail bb
    simp [coordsInBBox, codePairs, pairInBBox, Bool.and_eq_true, decide_eq_true_eq,
      ge_iff_le, and_assoc]
  · intro q tail bb h
    rcases tail with _ | ⟨hd, tl⟩
    · simp [coordsInBBox, codePairs]
    · rcases hd with q2 | ll
      · exact absurd rfl (h q2 tl)
      · simp [coordsInBBox, codePairs]
  · intro l bb h1 h2 ih
    rcases l with _ | ⟨hd, tl⟩
    · exact ih
    · rcases hd with q | ll
      · exact absurd rfl (h2 q tl)
      · exact ih
  · intro bb
    simp [anyCoordsInBBox, codePairsList]
  · intro c cs bb ih1 ih2
    simp only [anyCoordsInBBox, codePairsList, Bool.or_eq_true, ih1, ih2,
      List.mem_append]
    constructor
    · rintro (⟨p, hp, hin⟩ | ⟨p, hp, hin⟩)
      · exact ⟨p, Or.inl hp, hin⟩
      · exact ⟨p, Or.inr hp, hin⟩
    · rintro ⟨p, hp | hp, hin⟩
      · exact Or.inl ⟨p, hp, hin⟩
      · exact Or.inr ⟨p, hp, hin⟩

/-- The `intersects` guard characterized: geometry and coordinates must be
present, and some code-discriminated pair must lie in the box. -/
theorem intersects_iff (geo : Option GeometryJ) (bbox : BBox ℚ) :
    intersects geo bbox = true ↔
      ∃ g, geo = some g ∧ ∃ c, g.coordinates = some c ∧
        ∃ p ∈ codePairs c, pairInBBox p bbox := by
  rcases geo with _ | g
  · simp [intersects]
  · rcases hc : g.coordinates with _ | c
    · simp [intersects, hc]
    · simp [intersects, hc, coordsInBBox_iff]

/-- C8 (corrected): the region filter expands the box by 5 degrees on each
side and retains a feature iff some coordinate pair found anywhere in its
nested coordinate structure lies within the expanded box — where a pair is
what the code's discriminator yields: an array whose FIRST element is
numeric contributes its first two elements (when the second is numeric too)
regardless of length, rather than the spec's exactly-2-element arrays; any
other array is recursed into with any-match. Hence a feature with such a
pair strictly inside is retained, and one all of whose pairs lie outside is
dropped. -/
theorem filter_soundness (fc : FeatureCollection FeatureJ) (bbox : BBox ℚ) (f : FeatureJ) :
    (f ∈ (filterByBBox (.valid fc) bbox).features ↔
      (f ∈ fc.features ∧ ∃ g, f.geometry = some g ∧ ∃ c, g.coordinates = some c ∧
        ∃ p ∈ codePairs c, pairInBBox p (expandBBox bbox))) ∧
    (∀ g c p, f ∈ fc.features → f.geometry = some g → g.coordinates = some c →
      p ∈ codePairs c → pairStrictlyInBBox p (expandBBox bbox) →
      f ∈ (filterByBBox (.valid fc) bbox).features) ∧
    (f ∈ fc.features →
      (∀ g, f.geometry = some g → ∀ c, g.coordinates = some c →
        ∀ p ∈ codePairs c, ¬ pairInBBox p (expandBBox bbox)) →
      f ∉ (filterByBBox (.valid fc) bbox).features) := by
  have hmem : f ∈ (filterByBBox (.valid fc) bbox).features ↔
      (f ∈ fc.features ∧ ∃ g, f.geometry = some g ∧ ∃ c, g.coordinates = some c ∧
        ∃ p ∈ codePairs c, pairInBBox p (expandBBox bbox)) := by
    simp only [filterByBBox, List.mem_filter, intersects_iff]
  refine ⟨hmem, ?_, ?_⟩
  · intro g c p hf hg hc hp hstrict
    refine hmem.mpr ⟨hf, g, hg, c, hc, p, hp, ?_⟩
    obtain ⟨h1, h2, h3, h4⟩ := hstrict
    exact ⟨h1.le, h2.le, h3.le, h4.le⟩
  · intro hf hnone hmem2
    obtain ⟨-, g, hg, c, hc, p, hp, hin⟩ := hmem.mp hmem2
    exact hnone g hg c hc p hp hin

/-- C8 counterexample: the 3-element numeric position `[0, 0, 0]` (a legal
GeoJSON `[lng, lat, elevation]` coordinate). The code treats it as the pair
`(0, 0)` and retains the feature for bbox `-1..1 × -1..1`, but the spec's
discriminator ("a 2-element numeric array is a coordinate; otherwise
recurse") finds no coordinate pair in it at all, so the claim's
retained-iff-some-pair-in-expanded-box equivalence fails at this input. -/
theorem filter_soundness_counterexample :
    ¬ ((⟨some ⟨some (JVal.arr [.num 0, .num 0, .num 0])⟩⟩ : FeatureJ) ∈
        (filterByBBox
          (.valid ⟨[⟨some ⟨some (JVal.arr [.num 0, .num 0, .num 0])⟩⟩]⟩)
          ⟨-1, 1, -1, 1⟩).features ↔
      ∃ p ∈ specPairs (JVal.arr [.num 0, .num 0, .num 0]),
        pairInBBox p (expandBBox ⟨-1, 1, -1, 1⟩)) := by
  have h1 : (⟨some ⟨some (JVal.arr [.num 0, .num 0, .num 0])⟩⟩ : FeatureJ) ∈
      (filterByBBox
        (.valid ⟨[⟨some ⟨some (JVal.arr [.num 0, .num 0, .num 0])⟩⟩]⟩)
        ⟨-1, 1, -1, 1⟩).features := by
    simp only [filterByBBox, expandBBox, List.mem_filter, List.mem_singleton,
      intersects, coordsInBBox]
    norm_num
  have h2 : specPairs (JVal.arr [.num 0, .num 0, .num 0]) = [] := rfl
  intro hiff
  obtain ⟨p, hp, -⟩ := hiff.mp h1
  rw [h2] at hp
  exact absurd hp (List.not_mem_nil p)

/-! ## Document composition (exportAsPNG, maputils.ts lines 660-1048, and the
equivalent JSX layer stack of artworkpreview) -/

/-- Source `hasAnyGeo` (maputils.ts lines 857-862 / part_001 lines 212-217):
some of the five layers has a non-empty feature list, tested in the source's
order coastlines, land, rivers, lakes, borders. -/
def hasAnyGeo {F : Type} (g : GeographicData F) : Bool :=
  decide (0 < g.coastlines.features.length) || decide (0 < g.land.features.length) ||
  decide (0 < g.rivers.features.length) || decide (0 < g.lakes.features.length) ||
  decide (0 < g.borders.features.length)

/-- The export's `geoToSVG` closure (maputils.ts lines 699-705): projection
shifted by the page margin and title band. -/
def geoToSVG (margin titleAreaHeight : ℚ) (proj : ProjectionParams ℚ)
    (lng lat : ℚ) : SVGPoint ℚ :=
  let projected := projectToSVG lng lat proj
  ⟨margin + projected.x, margin + titleAreaHeight + projected.y⟩

/-- The 10 longitude gridlines of the fallback grid (maputils.ts lines
870-876), as (top, bottom) endpoint pairs. -/
def gridLngLines (bbox : BBox ℚ) (margin titleAreaHeight : ℚ)
    (proj : ProjectionParams ℚ) : List (SVGPoint ℚ × SVGPoint ℚ) :=
  (List.range 10).map (fun i =>
    let lng := bbox.minLng + ((bbox.maxLng - bbox.minLng) * i) / 9
    (geoToSVG margin titleAreaHeight proj lng bbox.maxLat,
     geoToSVG margin titleAreaHeight proj lng bbox.minLat))

/-- The 8 latitude gridlines of the fallback grid (maputils.ts lines
878-884), as (left, right) endpoint pairs. -/
def gridLatLines (bbox : BBox ℚ) (margin titleAreaHeight : ℚ)
    (proj : ProjectionParams ℚ) : List (SVGPoint ℚ × SVGPoint ℚ) :=
  (List.range 8).map (fun i =>
    let lat := bbox.minLat + ((bbox.maxLat - bbox.minLat) * i) / 7
    (geoToSVG margin titleAreaHeight proj bbox.minLng lat,
     geoToSVG margin titleAreaHeight proj bbox.maxLng lat))

/-- One drawn group of the composed document's geographic portion: a
reference layer with its serialized path strings, or the fallback grid with
its gridline endpoints. -/
inductive SvgGroup where
  | landG (paths : List String)
  | lakesG (paths : List String)
  | riversG (paths : List String)
  | coastlinesG (paths : List String)
  | bordersG (paths : List String)
  | gridG (lngLines latLines : List (SVGPoint ℚ × SVGPoint ℚ))
deriving DecidableEq

/-- The path strings one layer contributes: each feature serialized, empty
results dropped (the source's `if (pathData)` guard). -/
def layerPaths (fc : FeatureCollection Feature) (proj : ProjectionParams ℚ) :
    List String :=
  (fc.features.map (fun f => geoJSONToSVGPath f proj)).filter (fun p => p ≠ "")

/-- The geographic-layer portion of the composed document (exportAsPNG
lines 756-888): the five reference layers in source paint order — land,
lakes, rivers, coastlines, borders — each present iff its feature list is
non-empty, then the fallback grid iff `hasAnyGeo` is false. The SVG text
wrapper, journey path, markers and typography are independent of the grid
trigger and are not part of this group list. -/
def composeGeoLayers (g : GeographicData Feature) (bbox : BBox ℚ)
    (proj : ProjectionParams ℚ) (margin titleAreaHeight : ℚ) : List SvgGroup :=
  (if 0 < g.land.features.length then [SvgGroup.landG (layerPaths g.land proj)] else []) ++
  (if 0 < g.lakes.features.length then [SvgGroup.lakesG (layerPaths g.lakes proj)] else []) ++
  (if 0 < g.rivers.features.length then [SvgGroup.riversG (layerPaths g.rivers proj)] else []) ++
  (if 0 < g.coastlines.features.length then
    [SvgGroup.coastlinesG (layerPaths g.coastlines proj)] else []) ++
  (if 0 < g.borders.features.length then [SvgGroup.bordersG (layerPaths g.borders proj)] else []) ++
  (if hasAnyGeo g then []
   else [SvgGroup.gridG (gridLngLines bbox margin titleAreaHeight proj)
          (gridLatLines bbox margin titleAreaHeight proj)])

/-- Membership in a one-element conditional list. -/
theorem mem_if_singleton {α : Type} (x y : α) (c : Prop) [Decidable c] :
    x ∈ (if c then [y] else []) ↔ c ∧ x = y := by
  split <;> simp [*]

/-- C6: Fallback-grid trigger — the grid group is part of the composed
document iff all five reference layers have empty feature lists; each
non-empty layer contributes its serialized paths; and as soon as any layer
is non-empty (in particular when exactly one is) no grid group appears. -/
theorem fallback_grid_trigger (g : GeographicData Feature) (bbox : BBox ℚ)
    (proj : ProjectionParams ℚ) (margin titleAreaHeight : ℚ) :
    ((∃ ll la, SvgGroup.gridG ll la ∈ composeGeoLayers g bbox proj margin titleAreaHeight) ↔
      (g.coastlines.features = [] ∧ g.rivers.features = [] ∧ g.lakes.features = [] ∧
       g.land.features = [] ∧ g.borders.features = [])) ∧
    (g.land.features ≠ [] →
      SvgGroup.landG (layerPaths g.land proj) ∈ composeGeoLayers g bbox proj margin titleAreaHeight) ∧
    (g.lakes.features ≠ [] →
      SvgGroup.lakesG (layerPaths g.lakes proj) ∈ composeGeoLayers g bbox proj margin titleAreaHeight) ∧
    (g.rivers.features ≠ [] →
      SvgGroup.riversG (layerPaths g.rivers proj) ∈ composeGeoLayers g bbox proj margin titleAreaHeight) ∧
    (g.coastlines.features ≠ [] →
      SvgGroup.coastlinesG (layerPaths g.coastlines proj) ∈ composeGeoLayers g bbox proj margin titleAreaHeight) ∧
    (g.borders.features ≠ [] →
      SvgGroup.bordersG (layerPaths g.borders proj) ∈ composeGeoLayers g bbox proj margin titleAreaHeight) ∧
    (hasAnyGeo g = true →
      ∀ ll la, SvgGroup.gridG ll la ∉ composeGeoLayers g bbox proj margin titleAreaHeight) := by
  have hgeo : hasAnyGeo g = true ↔
      ¬(g.coastlines.features = [] ∧ g.rivers.features = [] ∧ g.lakes.features = [] ∧
        g.land.features = [] ∧ g.borders.features = []) := by
    simp [hasAnyGeo, List.length_pos, or_iff_not_imp_left, not_and_or]
    tauto
  refine ⟨?_, ?_, ?_, ?_, ?_, ?_, ?_⟩
  · constructor
    · rintro ⟨ll, la, hmem⟩
      simp only [composeGeoLayers, List.mem_append, mem_if_singleton] at hmem
      rcases hmem with ((((h | h) | h) | h) | h) | h <;>
        first
        | exact absurd h.2 (by simp)
        | ((by_cases hc : hasAnyGeo g = true)
           · simp [hc] at h
           · exact of_not_not ((not_iff_not.mpr hgeo).mp (by simp [hc])))
    · intro hall
      have hfalse : hasAnyGeo g = false := by
        rw [Bool.eq_false_iff]
        intro hc
        exact (hgeo.mp hc) hall
      refine ⟨gridLngLines bbox margin titleAreaHeight proj,
              gridLatLines bbox margin titleAreaHeight proj, ?_⟩
      simp [composeGeoLayers, List.mem_append, hfalse]
  · intro h
    simp [composeGeoLayers, List.mem_append, List.length_pos, h]
  · intro h
    simp [composeGeoLayers, List.mem_append, List.length_pos, h]
  · intro h
    simp [composeGeoLayers, List.mem_append, List.length_pos, h]
  · intro h
    simp [composeGeoLayers, List.mem_append, List.length_pos, h]
  · intro h
    simp [composeGeoLayers, List.mem_append, List.length_pos, h]
  · intro hc ll la hmem
    simp only [composeGeoLayers, List.mem_append, mem_if_singleton] at hmem
    rcases hmem with ((((h | h) | h) | h) | h) | h <;>
      first
      | exact absurd h.2 (by simp)
      | simp [hc] at h

/-- Witness for C6 at a concrete input: lakes carries one LineString
feature, the other four layers are empty — the lakes group is drawn, the
grid is not. -/
theorem fallback_grid_trigger_witness :
    ((⟨⟨[]⟩, ⟨[]⟩, ⟨[⟨some (Geometry.lineString [(0, 0), (1, 1)])⟩]⟩, ⟨[]⟩, ⟨[]⟩⟩ :
        GeographicData Feature).lakes.features ≠ []) ∧
    (SvgGroup.lakesG (layerPaths
        (⟨⟨[]⟩, ⟨[]⟩, ⟨[⟨some (Geometry.lineString [(0, 0), (1, 1)])⟩]⟩, ⟨[]⟩, ⟨[]⟩⟩ :
          GeographicData Feature).lakes (calculateProjection ⟨0, 10, 0, 10⟩ 340 514 0)) ∈
      composeGeoLayers
        ⟨⟨[]⟩, ⟨[]⟩, ⟨[⟨some (Geometry.lineString [(0, 0), (1, 1)])⟩]⟩, ⟨[]⟩, ⟨[]⟩⟩
        ⟨0, 10, 0, 10⟩ (calculateProjection ⟨0, 10, 0, 10⟩ 340 514 0) 40 80) ∧
    (∀ ll la, SvgGroup.gridG ll la ∉
      composeGeoLayers
        ⟨⟨[]⟩, ⟨[]⟩, ⟨[⟨some (Geometry.lineString [(0, 0), (1, 1)])⟩]⟩, ⟨[]⟩, ⟨[]⟩⟩
        ⟨0, 10, 0, 10⟩ (calculateProjection ⟨0, 10, 0, 10⟩ 340 514 0) 40 80) :=
  ⟨by simp,
   (fallback_grid_trigger
      ⟨⟨[]⟩, ⟨[]⟩, ⟨[⟨some (Geometry.lineString [(0, 0), (1, 1)])⟩]⟩, ⟨[]⟩, ⟨[]⟩⟩
      ⟨0, 10, 0, 10⟩ (calculateProjection ⟨0, 10, 0, 10⟩ 340 514 0) 40 80).2.2.1
     (by simp),
   (fallback_grid_trigger
      ⟨⟨[]⟩, ⟨[]⟩, ⟨[⟨some (Geometry.lineString [(0, 0), (1, 1)])⟩]⟩, ⟨[]⟩, ⟨[]⟩⟩
      ⟨0, 10, 0, 10⟩ (calculateProjection ⟨0, 10, 0, 10⟩ 340 514 0) 40 80).2.2.2.2.2.2
     (by simp [hasAnyGeo])⟩

/-! ## Path humanizer over ℝ (generateHumanizedPath, maputils.ts lines
437-518; the same algorithm is duplicated as generatePathSegment in the
export routine, lines 893-980, and in artworkpreview lines 107-193) -/

/-- The nine `Math.random()` draws one humanized segment consumes, named in
call order: curve variation, asymmetry, perpendicular jitter, the three
noise frequencies, the three noise phases. -/
structure Rand (α : Type) where
  curveVar : α
  asym : α
  perpOff : α
  f1 : α
  f2 : α
  f3 : α
  ph1 : α
  ph2 : α
  ph3 : α

/-- List `getD` through a range-map. -/
theorem getD_range_map {α : Type} (f : ℕ → α) (d : α) {n i : ℕ} (h : i < n) :
    ((List.range n).map f).getD i d = f i := by
  rw [List.getD_eq_getElem?_getD]
  simp [List.getElem?_map, List.getElem?_range, h]

/-- List `getD` through `mapIdx`. -/
theorem getD_mapIdx {α β : Type} (l : List α) (f : ℕ → α → β) (d : β) (d2 : α)
    {i : ℕ} (h : i < l.length) :
    (l.mapIdx f).getD i d = f i (l.getD i d2) := by
  have h2 : i < (l.mapIdx f).length := by simpa using h
  rw [List.getD_eq_getElem?_getD, List.getElem?_eq_getElem h2,
      List.getD_eq_getElem?_getD, List.getElem?_eq_getElem h]
  show (l.mapIdx f).get ⟨i, h2⟩ = f i (l.get ⟨i, h⟩)
  rw [List.get_mapIdx]

namespace Human

noncomputable section

/-- Source local `dLng = p2.lng - p0.lng`. -/
def dLng (p0 p2 : GeoAnchor ℝ) : ℝ := p2.lng - p0.lng

/-- Source local `dLat = p2.lat - p0.lat`. -/
def dLat (p0 p2 : GeoAnchor ℝ) : ℝ := p2.lat - p0.lat

/-- Source local `distance = Math.sqrt(dLng*dLng + dLat*dLat)`. -/
def distance (p0 p2 : GeoAnchor ℝ) : ℝ :=
  Real.sqrt (dLng p0 p2 * dLng p0 p2 + dLat p0 p2 * dLat p0 p2)

/-- Source local `perpLng = -dLat / distance`. -/
def perpLng (p0 p2 : GeoAnchor ℝ) : ℝ := -dLat p0 p2 / distance p0 p2

/-- Source local `perpLat = dLng / distance`. -/
def perpLat (p0 p2 : GeoAnchor ℝ) : ℝ := dLng p0 p2 / distance p0 p2

/-- Source local `midLng`. -/
def midLng (p0 p2 : GeoAnchor ℝ) : ℝ := (p0.lng + p2.lng) / 2

/-- Source local `midLat`. -/
def midLat (p0 p2 : GeoAnchor ℝ) : ℝ := (p0.lat + p2.lat) / 2

/-- Source local `curveVariation = 0.8 + Math.random() * 0.4`. -/
def curveVariation (r : Rand ℝ) : ℝ := 0.8 + r.curveVar * 0.4

/-- Source local `offset = distance * curvature * curveVariation`. -/
def offsetMag (p0 p2 : GeoAnchor ℝ) (curvature : ℝ) (r : Rand ℝ) : ℝ :=
  distance p0 p2 * curvature * curveVariation r

/-- Source local `asymmetry = -0.05 + Math.random() * 0.1`. -/
def asymmetry (r : Rand ℝ) : ℝ := -0.05 + r.asym * 0.1

/-- Source local `randomPerpOffset = (Math.random() - 0.5) * distance * 0.03`. -/
def randomPerpOffset (p0 p2 : GeoAnchor ℝ) (r : Rand ℝ) : ℝ :=
  (r.perpOff - 0.5) * distance p0 p2 * 0.03

/-- Source local `p1`, the quadratic Bezier control point. -/
def ctrlPoint (p0 p2 : GeoAnchor ℝ) (curvature : ℝ) (r : Rand ℝ) : GeoAnchor ℝ :=
  { lng := midLng p0 p2 +
      perpLng p0 p2 * (offsetMag p0 p2 curvature r + randomPerpOffset p0 p2 r) +
      dLng p0 p2 * asymmetry r
    lat := midLat p0 p2 +
      perpLat p0 p2 * (offsetMag p0 p2 curvature r + randomPerpOffset p0 p2 r) +
      dLat p0 p2 * asymmetry r }

/-- One Bezier sample of the loop `for (i = 0; i <= 100; i++)`, at
`t = i / 100`. -/
def pointAt (p0 p2 : GeoAnchor ℝ) (curvature : ℝ) (r : Rand ℝ) (i : ℕ) : GeoAnchor ℝ :=
  let t : ℝ := (i : ℝ) / 100
  let mt : ℝ := 1 - t
  { lng := mt * mt * p0.lng + 2 * mt * t * (ctrlPoint p0 p2 curvature r).lng +
      t * t * p2.lng
    lat := mt * mt * p0.lat + 2 * mt * t * (ctrlPoint p0 p2 curvature r).lat +
      t * t * p2.lat }

/-- Source array `points`: the 101 Bezier samples. -/
def points (p0 p2 : GeoAnchor ℝ) (curvature : ℝ) (r : Rand ℝ) : List (GeoAnchor ℝ) :=
  (List.range 101).map (pointAt p0 p2 curvature r)

/-- Source local `baseAmplitude = distance * 0.008`. -/
def baseAmplitude (p0 p2 : GeoAnchor ℝ) : ℝ := distance p0 p2 * 0.008

/-- Source local `freq1 = 3 + Math.random() * 2`. -/
def freq1 (r : Rand ℝ) : ℝ := 3 + r.f1 * 2

/-- Source local `freq2 = 8 + Math.random() * 4`. -/
def freq2 (r : Rand ℝ) : ℝ := 8 + r.f2 * 4

/-- Source local `freq3 = 15 + Math.random() * 5`. -/
def freq3 (r : Rand ℝ) : ℝ := 15 + r.f3 * 5

/-- Source local `phase1 = Math.random() * Math.PI * 2`. -/
def phase1 (r : Rand ℝ) : ℝ := r.ph1 * Real.pi * 2

/-- Source local `phase2 = Math.random() * Math.PI * 2`. -/
def phase2 (r : Rand ℝ) : ℝ := r.ph2 * Real.pi * 2

/-- Source local `phase3 = Math.random() * Math.PI * 2`. -/
def phase3 (r : Rand ℝ) : ℝ := r.ph3 * Real.pi * 2

/-- Source local `totalNoise = wave1 + wave2 + wave3` at noise parameter
`t`: three sine waves with amplitudes weighted 1 / 0.5 / 0.25 of the base
amplitude. -/
def totalNoise (p0 p2 : GeoAnchor ℝ) (r : Rand ℝ) (t : ℝ) : ℝ :=
  Real.sin (t * Real.pi * freq1 r + phase1 r) * baseAmplitude p0 p2 +
  Real.sin (t * Real.pi * freq2 r + phase2 r) * baseAmplitude p0 p2 * 0.5 +
  Real.sin (t * Real.pi * freq3 r + phase3 r) * baseAmplitude p0 p2 * 0.25

/-- Source array `humanizedPoints`: `points.map((point, index) => ...)` with
noise parameter `t = index / points.length` (length 101, not 100) displacing
each sample along the unit perpendicular. -/
def humanizedPoints (p0 p2 : GeoAnchor ℝ) (curvature : ℝ) (r : Rand ℝ) :
    List (GeoAnchor ℝ) :=
  (points p0 p2 curvature r).mapIdx (fun index point =>
    { lng := point.lng + perpLng p0 p2 *
        totalNoise p0 p2 r ((index : ℝ) / ((points p0 p2 curvature r).length : ℝ))
      lat := point.lat + perpLat p0 p2 *
        totalNoise p0 p2 r ((index : ℝ) / ((points p0 p2 curvature r).length : ℝ)) })

/-- The all-zero anchor, used as the (never-reached) list-access default. -/
def zeroPt : GeoAnchor ℝ := ⟨0, 0⟩

/-- One step of the source's smoothing loop (`windowSize = 2`): indices in
the first or last two positions are copied unchanged, interior indices get
the centered 5-point moving average (the `for j in -2..2` sum unrolled). -/
def smoothAt (l : List (GeoAnchor ℝ)) (i : ℕ) : GeoAnchor ℝ :=
  if i < 2 ∨ l.length - 2 ≤ i then l.getD i zeroPt
  else
    { lng := ((l.getD (i - 2) zeroPt).lng + (l.getD (i - 1) zeroPt).lng +
        (l.getD i zeroPt).lng + (l.getD (i + 1) zeroPt).lng +
        (l.getD (i + 2) zeroPt).lng) / 5
      lat := ((l.getD (i - 2) zeroPt).lat + (l.getD (i - 1) zeroPt).lat +
        (l.getD i zeroPt).lat + (l.getD (i + 1) zeroPt).lat +
        (l.getD (i + 2) zeroPt).lat) / 5 }

/-- Embedding of `generateHumanizedPath` (maputils.ts lines 437-518): Bezier
sampling, perpendicular sine noise, then the smoothing pass over all
indices. -/
def generateHumanizedPath (p0 p2 : GeoAnchor ℝ) (curvature : ℝ) (r : Rand ℝ) :
    List (GeoAnchor ℝ) :=
  (List.range (humanizedPoints p0 p2 curvature r).length).map
    (smoothAt (humanizedPoints p0 p2 curvature r))

theorem points_length (p0 p2 : GeoAnchor ℝ) (curvature : ℝ) (r : Rand ℝ) :
    (points p0 p2 curvature r).length = 101 := by
  simp [points]

theorem humanizedPoints_length (p0 p2 : GeoAnchor ℝ) (curvature : ℝ) (r : Rand ℝ) :
    (humanizedPoints p0 p2 curvature r).length = 101 := by
  simp [humanizedPoints, List.length_mapIdx, points_length]

theorem generateHumanizedPath_length (p0 p2 : GeoAnchor ℝ) (curvature : ℝ) (r : Rand ℝ) :
    (generateHumanizedPath p0 p2 curvature r).length = 101 := by
  simp [generateHumanizedPath, humanizedPoints_length]

theorem points_getD (p0 p2 : GeoAnchor ℝ) (curvature : ℝ) (r : Rand ℝ) {i : ℕ}
    (h : i < 101) :
    (points p0 p2 curvature r).getD i zeroPt = pointAt p0 p2 curvature r i := by
  rw [points, getD_range_map _ _ h]

/-- The produced segment's first point: the Bezier start `p0` displaced along
the perpendicular by the noise at parameter `0` — the smoothing pass copies
index 0 unchanged, but the sine noise is already applied there. -/
theorem first_point_eq (p0 p2 : GeoAnchor ℝ) (curvature : ℝ) (r : Rand ℝ) :
    (generateHumanizedPath p0 p2 curvature r).getD 0 zeroPt =
      ⟨p0.lng + perpLng p0 p2 * totalNoise p0 p2 r 0,
       p0.lat + perpLat p0 p2 * totalNoise p0 p2 r 0⟩ := by
  have h101 := humanizedPoints_length p0 p2 curvature r
  rw [generateHumanizedPath, getD_range_map _ _ (by rw [h101]; norm_num)]
  rw [smoothAt, if_pos (Or.inl (by norm_num))]
  rw [humanizedPoints, getD_mapIdx _ _ _ zeroPt (by rw [points_length]; norm_num)]
  simp only [points_length, points_getD p0 p2 curvature r (by norm_num : (0:ℕ) < 101),
    Nat.cast_zero, zero_div, pointAt, GeoAnchor.mk.injEq]
  norm_num

/-- The produced segment's last point: the Bezier end `p2` displaced along
the perpendicular by the noise at parameter `100/101` — the smoothing pass
copies index 100 unchanged, but the sine noise is already applied there. -/
theorem last_point_eq (p0 p2 : GeoAnchor ℝ) (curvature : ℝ) (r : Rand ℝ) :
    (generateHumanizedPath p0 p2 curvature r).getD 100 zeroPt =
      ⟨p2.lng + perpLng p0 p2 * totalNoise p0 p2 r (100 / 101),
       p2.lat + perpLat p0 p2 * totalNoise p0 p2 r (100 / 101)⟩ := by
  have h101 := humanizedPoints_length p0 p2 curvature r
  rw [generateHumanizedPath, getD_range_map _ _ (by rw [h101]; norm_num)]
  rw [smoothAt, if_pos (Or.inr (by rw [h101]; norm_num))]
  rw [humanizedPoints, getD_mapIdx _ _ _ zeroPt (by rw [points_length]; norm_num)]
  simp only [points_length, points_getD p0 p2 curvature r (by norm_num : (100:ℕ) < 101),
    pointAt, GeoAnchor.mk.injEq]
  norm_num

/-- Distinct anchors give a positive chord length. -/
theorem distance_pos (p0 p2 : GeoAnchor ℝ) (h : p0 ≠ p2) : 0 < distance p0 p2 := by
  have hne : dLng p0 p2 ≠ 0 ∨ dLat p0 p2 ≠ 0 := by
    by_contra hc
    push_neg at hc
    obtain ⟨h1, h2⟩ := hc
    rcases p0 with ⟨a, b⟩
    rcases p2 with ⟨c, d⟩
    simp only [dLng, dLat, sub_eq_zero] at h1 h2
    exact h (by rw [h1, h2])
  have hsq : 0 < dLng p0 p2 * dLng p0 p2 + dLat p0 p2 * dLat p0 p2 := by
    rcases hne with h1 | h1
    · nlinarith [mul_self_pos.mpr h1, mul_self_nonneg (dLat p0 p2)]
    · nlinarith [mul_self_pos.mpr h1, mul_self_nonneg (dLng p0 p2)]
  exact Real.sqrt_pos.mpr hsq

/-- For distinct anchors the perpendicular is a nonzero vector. -/
theorem perp_ne_zero (p0 p2 : GeoAnchor ℝ) (h : p0 ≠ p2) :
    perpLng p0 p2 ≠ 0 ∨ perpLat p0 p2 ≠ 0 := by
  have hd := distance_pos p0 p2 h
  have hne : dLng p0 p2 ≠ 0 ∨ dLat p0 p2 ≠ 0 := by
    by_contra hc
    push_neg at hc
    obtain ⟨h1, h2⟩ := hc
    rcases p0 with ⟨a, b⟩
    rcases p2 with ⟨c, d⟩
    simp only [dLng, dLat, sub_eq_zero] at h1 h2
    exact h (by rw [h1, h2])
  rcases hne with h1 | h1
  · right
    exact div_ne_zero h1 (ne_of_gt hd)
  · left
    rw [perpLng]
    exact div_ne_zero (neg_ne_zero.mpr h1) (ne_of_gt hd)

/-- An anchor displaced along the (nonzero) perpendicular by `N` equals the
anchor itself exactly when `N = 0`. -/
theorem perp_displacement_iff (p0 p2 : GeoAnchor ℝ) (h : p0 ≠ p2)
    (X : GeoAnchor ℝ) (N : ℝ) :
    (⟨X.lng + perpLng p0 p2 * N, X.lat + perpLat p0 p2 * N⟩ : GeoAnchor ℝ) = X ↔
      N = 0 := by
  constructor
  · intro hEq
    have h1 : X.lng + perpLng p0 p2 * N = X.lng := congrArg GeoAnchor.lng hEq
    have h2 : X.lat + perpLat p0 p2 * N = X.lat := congrArg GeoAnchor.lat hEq
    have h1' : perpLng p0 p2 * N = 0 := by linarith
    have h2' : perpLat p0 p2 * N = 0 := by linarith
    rcases perp_ne_zero p0 p2 h with hp | hp
    · exact (mul_eq_zero.mp h1').resolve_left hp
    · exact (mul_eq_zero.mp h2').resolve_left hp
  · intro hN
    rw [hN]
    simp

/-- The chord of `⟨0,0⟩ → ⟨1,0⟩` has unit length. -/
theorem distance_unit : distance ⟨0, 0⟩ ⟨1, 0⟩ = 1 := by
  simp [distance, dLng, dLat]

/-- C1 (corrected): for distinct anchors the segment has 101 points; its
first point is `p0` displaced along the unit perpendicular by the sine noise
evaluated at parameter 0 and its last point is `p2` displaced by the noise
at parameter 100/101 (the Bezier hits the anchors exactly and the smoothing
pass copies the two boundary points unchanged, but the sine noise is applied
at every sample including the endpoints); the endpoints therefore equal the
anchors exactly iff the respective boundary noise sums vanish — not for
every value of the randomness source. -/
theorem humanizer_endpoint_fidelity_corrected (p0 p2 : GeoAnchor ℝ) (curvature : ℝ)
    (r : Rand ℝ) (h : p0 ≠ p2) :
    (generateHumanizedPath p0 p2 curvature r).length = 101 ∧
    (generateHumanizedPath p0 p2 curvature r).getD 0 zeroPt =
      ⟨p0.lng + perpLng p0 p2 * totalNoise p0 p2 r 0,
       p0.lat + perpLat p0 p2 * totalNoise p0 p2 r 0⟩ ∧
    (generateHumanizedPath p0 p2 curvature r).getD 100 zeroPt =
      ⟨p2.lng + perpLng p0 p2 * totalNoise p0 p2 r (100 / 101),
       p2.lat + perpLat p0 p2 * totalNoise p0 p2 r (100 / 101)⟩ ∧
    ((generateHumanizedPath p0 p2 curvature r).getD 0 zeroPt = p0 ↔
      totalNoise p0 p2 r 0 = 0) ∧
    ((generateHumanizedPath p0 p2 curvature r).getD 100 zeroPt = p2 ↔
      totalNoise p0 p2 r (100 / 101) = 0) := by
  refine ⟨generateHumanizedPath_length p0 p2 curvature r,
    first_point_eq p0 p2 curvature r, last_point_eq p0 p2 curvature r, ?_, ?_⟩
  · rw [first_point_eq]
    exact perp_displacement_iff p0 p2 h p0 _
  · rw [last_point_eq]
    exact perp_displacement_iff p0 p2 h p2 _

/-- Witness for C1's corrected statement: anchors `(0,0) → (1,0)`, the calm
preset `0.08`, all nine draws 0. -/
theorem humanizer_endpoint_fidelity_witness :
    ((⟨0, 0⟩ : GeoAnchor ℝ) ≠ ⟨1, 0⟩) ∧
    ((generateHumanizedPath ⟨0, 0⟩ ⟨1, 0⟩ (8 / 100) ⟨0, 0, 0, 0, 0, 0, 0, 0, 0⟩).length = 101 ∧
     (generateHumanizedPath ⟨0, 0⟩ ⟨1, 0⟩ (8 / 100) ⟨0, 0, 0, 0, 0, 0, 0, 0, 0⟩).getD 0 zeroPt =
       ⟨(⟨0, 0⟩ : GeoAnchor ℝ).lng + perpLng ⟨0, 0⟩ ⟨1, 0⟩ *
          totalNoise ⟨0, 0⟩ ⟨1, 0⟩ ⟨0, 0, 0, 0, 0, 0, 0, 0, 0⟩ 0,
        (⟨0, 0⟩ : GeoAnchor ℝ).lat + perpLat ⟨0, 0⟩ ⟨1, 0⟩ *
          totalNoise ⟨0, 0⟩ ⟨1, 0⟩ ⟨0, 0, 0, 0, 0, 0, 0, 0, 0⟩ 0⟩ ∧
     (generateHumanizedPath ⟨0, 0⟩ ⟨1, 0⟩ (8 / 100) ⟨0, 0, 0, 0, 0, 0, 0, 0, 0⟩).getD 100 zeroPt =
       ⟨(⟨1, 0⟩ : GeoAnchor ℝ).lng + perpLng ⟨0, 0⟩ ⟨1, 0⟩ *
          totalNoise ⟨0, 0⟩ ⟨1, 0⟩ ⟨0, 0, 0, 0, 0, 0, 0, 0, 0⟩ (100 / 101),
        (⟨1, 0⟩ : GeoAnchor ℝ).lat + perpLat ⟨0, 0⟩ ⟨1, 0⟩ *
          totalNoise ⟨0, 0⟩ ⟨1, 0⟩ ⟨0, 0, 0, 0, 0, 0, 0, 0, 0⟩ (100 / 101)⟩ ∧
     ((generateHumanizedPath ⟨0, 0⟩ ⟨1, 0⟩ (8 / 100) ⟨0, 0, 0, 0, 0, 0, 0, 0, 0⟩).getD 0 zeroPt =
        ⟨0, 0⟩ ↔ totalNoise ⟨0, 0⟩ ⟨1, 0⟩ ⟨0, 0, 0, 0, 0, 0, 0, 0, 0⟩ 0 = 0) ∧
     ((generateHumanizedPath ⟨0, 0⟩ ⟨1, 0⟩ (8 / 100) ⟨0, 0, 0, 0, 0, 0, 0, 0, 0⟩).getD 100 zeroPt =
        ⟨1, 0⟩ ↔ totalNoise ⟨0, 0⟩ ⟨1, 0⟩ ⟨0, 0, 0, 0, 0, 0, 0, 0, 0⟩ (100 / 101) = 0)) :=
  ⟨by norm_num [GeoAnchor.mk.injEq],
   humanizer_endpoint_fidelity_corrected ⟨0, 0⟩ ⟨1, 0⟩ (8 / 100) ⟨0, 0, 0, 0, 0, 0, 0, 0, 0⟩
     (by norm_num [GeoAnchor.mk.injEq])⟩

/-- C1 counterexample: with anchors `(0,0) → (1,0)`, the calm preset `0.08`,
and the concrete draws `curveVar = 0, asym = 1/2, perpOff = 1/2, freqs = 0,
ph1 = 1/4 (phase₁ = π/2), ph2 = ph3 = 0`, the boundary noise is
`sin(π/2) · 0.008 = 0.008`, so the first point of the produced segment is
`(0, 0.008) ≠ (0, 0)`: the claim's exact endpoint fidelity fails. -/
theorem humanizer_endpoint_fidelity_counterexample :
    (generateHumanizedPath ⟨0, 0⟩ ⟨1, 0⟩ (8 / 100)
        ⟨0, 1/2, 1/2, 0, 0, 0, 1/4, 0, 0⟩).getD 0 zeroPt ≠ ⟨0, 0⟩ := by
  have hperp : perpLat ⟨0, 0⟩ ⟨1, 0⟩ = 1 := by
    rw [perpLat, distance_unit]
    simp [dLng]
  have hsin : Real.sin ((1/4 : ℝ) * Real.pi * 2) = 1 := by
    rw [show (1/4 : ℝ) * Real.pi * 2 = Real.pi / 2 by ring, Real.sin_pi_div_two]
  have hN : totalNoise ⟨0, 0⟩ ⟨1, 0⟩ ⟨0, 1/2, 1/2, 0, 0, 0, 1/4, 0, 0⟩ 0 = 8 / 1000 := by
    rw [totalNoise, phase1, phase2, phase3, baseAmplitude, distance_unit]
    simp only [zero_mul, zero_add, mul_one]
    norm_num [hsin]
  rw [first_point_eq]
  intro hEq
  have hlat := congrArg GeoAnchor.lat hEq
  simp only [hperp, hN] at hlat
  norm_num at hlat

/-- One segment of the per-pair loop of `drawPathOnMap` (maputils.ts lines
531-537) and `exportAsPNG` (lines 982-986): segment `i` runs from anchor `i`
to anchor `i + 1` with its own fresh draws `rs i`. -/
def segmentOf (anchors : List (GeoAnchor ℝ)) (curvature : ℝ) (rs : ℕ → Rand ℝ)
    (i : ℕ) : List (GeoAnchor ℝ) :=
  generateHumanizedPath (anchors.getD i zeroPt) (anchors.getD (i + 1) zeroPt)
    curvature (rs i)

/-- Source `allPathPoints`: the segments of all consecutive anchor pairs
concatenated in order. -/
def allPathPoints (anchors : List (GeoAnchor ℝ)) (curvature : ℝ)
    (rs : ℕ → Rand ℝ) : List (GeoAnchor ℝ) :=
  ((List.range (anchors.length - 1)).map (segmentOf anchors curvature rs)).flatten

/-- C3 (corrected): segments are generated independently pairwise, and both
the last point of segment `i` and the first point of segment `i+1` are the
shared anchor displaced along the respective segment's perpendicular by that
segment's own independent boundary noise; each equals the shared anchor
exactly iff its noise sum vanishes, so the two segment ends coincide with
the anchor (and with each other) only for the measure-zero draws where both
noise sums are zero — not in general. -/
theorem segment_continuity_corrected (anchors : List (GeoAnchor ℝ)) (curvature : ℝ)
    (rs : ℕ → Rand ℝ) (i : ℕ) (h3 : 3 ≤ anchors.length) (hi : i + 2 < anchors.length)
    (hab : anchors.getD i zeroPt ≠ anchors.getD (i + 1) zeroPt)
    (hbc : anchors.getD (i + 1) zeroPt ≠ anchors.getD (i + 2) zeroPt) :
    (segmentOf anchors curvature rs i).getD 100 zeroPt =
      ⟨(anchors.getD (i + 1) zeroPt).lng +
        perpLng (anchors.getD i zeroPt) (anchors.getD (i + 1) zeroPt) *
          totalNoise (anchors.getD i zeroPt) (anchors.getD (i + 1) zeroPt) (rs i) (100 / 101),
       (anchors.getD (i + 1) zeroPt).lat +
        perpLat (anchors.getD i zeroPt) (anchors.getD (i + 1) zeroPt) *
          totalNoise (anchors.getD i zeroPt) (anchors.getD (i + 1) zeroPt) (rs i) (100 / 101)⟩ ∧
    (segmentOf anchors curvature rs (i + 1)).getD 0 zeroPt =
      ⟨(anchors.getD (i + 1) zeroPt).lng +
        perpLng (anchors.getD (i + 1) zeroPt) (anchors.getD (i + 2) zeroPt) *
          totalNoise (anchors.getD (i + 1) zeroPt) (anchors.getD (i + 2) zeroPt) (rs (i + 1)) 0,
       (anchors.getD (i + 1) zeroPt).lat +
        perpLat (anchors.getD (i + 1) zeroPt) (anchors.getD (i + 2) zeroPt) *
          totalNoise (anchors.getD (i + 1) zeroPt) (anchors.getD (i + 2) zeroPt) (rs (i + 1)) 0⟩ ∧
    ((segmentOf anchors curvature rs i).getD 100 zeroPt = anchors.getD (i + 1) zeroPt ↔
      totalNoise (anchors.getD i zeroPt) (anchors.getD (i + 1) zeroPt) (rs i) (100 / 101) = 0) ∧
    ((segmentOf anchors curvature rs (i + 1)).getD 0 zeroPt = anchors.getD (i + 1) zeroPt ↔
      totalNoise (anchors.getD (i + 1) zeroPt) (anchors.getD (i + 2) zeroPt) (rs (i + 1)) 0 = 0) := by
  refine ⟨?_, ?_, ?_, ?_⟩
  · rw [segmentOf, last_point_eq]
  · rw [segmentOf, first_point_eq]
  · rw [segmentOf, last_point_eq]
    exact perp_displacement_iff _ _ hab _ _
  · rw [segmentOf, first_point_eq]
    exact perp_displacement_iff _ _ hbc _ _

/-- Witness for C3's corrected statement: the 3-anchor path
`(0,0), (1,0), (2,0)`, balanced preset `0.11`, all draws 0, at the shared
anchor between segments 0 and 1. -/
theorem segment_continuity_witness :
    (3 ≤ ([⟨0, 0⟩, ⟨1, 0⟩, ⟨2, 0⟩] : List (GeoAnchor ℝ)).length) ∧
    (0 + 2 < ([⟨0, 0⟩, ⟨1, 0⟩, ⟨2, 0⟩] : List (GeoAnchor ℝ)).length) ∧
    (([⟨0, 0⟩, ⟨1, 0⟩, ⟨2, 0⟩] : List (GeoAnchor ℝ)).getD 0 zeroPt ≠
      ([⟨0, 0⟩, ⟨1, 0⟩, ⟨2, 0⟩] : List (GeoAnchor ℝ)).getD 1 zeroPt) ∧
    ((segmentOf [⟨0, 0⟩, ⟨1, 0⟩, ⟨2, 0⟩] (11 / 100)
        (fun _ => ⟨0, 0, 0, 0, 0, 0, 0, 0, 0⟩) 0).getD 100 zeroPt =
      ([⟨0, 0⟩, ⟨1, 0⟩, ⟨2, 0⟩] : List (GeoAnchor ℝ)).getD 1 zeroPt ↔
        totalNoise (([⟨0, 0⟩, ⟨1, 0⟩, ⟨2, 0⟩] : List (GeoAnchor ℝ)).getD 0 zeroPt)
          (([⟨0, 0⟩, ⟨1, 0⟩, ⟨2, 0⟩] : List (GeoAnchor ℝ)).getD 1 zeroPt)
          ((fun _ : ℕ => (⟨0, 0, 0, 0, 0, 0, 0, 0, 0⟩ : Rand ℝ)) 0) (100 / 101) = 0) :=
  ⟨by norm_num, by norm_num,
   by norm_num [GeoAnchor.mk.injEq],
   (segment_continuity_corrected [⟨0, 0⟩, ⟨1, 0⟩, ⟨2, 0⟩] (11 / 100)
      (fun _ => ⟨0, 0, 0, 0, 0, 0, 0, 0, 0⟩) 0 (by norm_num) (by norm_num)
      (by norm_num [GeoAnchor.mk.injEq]) (by norm_num [GeoAnchor.mk.injEq])).2.2.1⟩

/-- C3 counterexample: the 3-anchor path `(0,0), (1,0), (2,0)` with the
balanced preset `0.11` and draws `ph1 = 1/4` for every segment — the first
point of segment 1 is the shared anchor `(1,0)` displaced to `(1, 0.008)`,
so it does not equal the shared anchor, refuting exact segment continuity. -/
theorem segment_continuity_counterexample :
    (segmentOf [⟨0, 0⟩, ⟨1, 0⟩, ⟨2, 0⟩] (11 / 100)
        (fun _ => ⟨0, 1/2, 1/2, 0, 0, 0, 1/4, 0, 0⟩) 1).getD 0 zeroPt ≠
      ([⟨0, 0⟩, ⟨1, 0⟩, ⟨2, 0⟩] : List (GeoAnchor ℝ)).getD 1 zeroPt := by
  have hgetD1 : ([⟨0, 0⟩, ⟨1, 0⟩, ⟨2, 0⟩] : List (GeoAnchor ℝ)).getD 1 zeroPt = ⟨1, 0⟩ := rfl
  have hgetD2 : ([⟨0, 0⟩, ⟨1, 0⟩, ⟨2, 0⟩] : List (GeoAnchor ℝ)).getD 2 zeroPt = ⟨2, 0⟩ := rfl
  have hd : distance ⟨1, 0⟩ ⟨2, 0⟩ = 1 := by
    simp [distance, dLng, dLat]
    norm_num
  have hperp : perpLat ⟨1, 0⟩ ⟨2, 0⟩ = 1 := by
    rw [perpLat, hd]
    simp [dLng]
    norm_num
  have hsin : Real.sin ((1/4 : ℝ) * Real.pi * 2) = 1 := by
    rw [show (1/4 : ℝ) * Real.pi * 2 = Real.pi / 2 by ring, Real.sin_pi_div_two]
  have hN : totalNoise ⟨1, 0⟩ ⟨2, 0⟩ ⟨0, 1/2, 1/2, 0, 0, 0, 1/4, 0, 0⟩ 0 = 8 / 1000 := by
    rw [totalNoise, phase1, phase2, phase3, baseAmplitude, hd]
    simp only [zero_mul, zero_add, mul_one]
    norm_num [hsin]
  rw [segmentOf, hgetD1, hgetD2, first_point_eq]
  intro hEq
  have hlat := congrArg GeoAnchor.lat hEq
  simp only [hperp, hN] at hlat
  norm_num at hlat

/-- C5 (corrected): for distinct anchors the chord length is positive and
the quadratic Bezier control point is the chord midpoint displaced along the
perpendicular by `d · k · v + j` and along the chord by the fraction `a`,
where the variation factor `v` lies in `[0.8, 1.2)` — not `[0.8, 1.0]` as
claimed — the lateral jitter satisfies `|j| ≤ 1.5% · d` and the chord-shift
fraction satisfies `|a| ≤ 5%`. -/
theorem bezier_control_point_corrected (p0 p2 : GeoAnchor ℝ) (curvature : ℝ)
    (r : Rand ℝ) (h : p0 ≠ p2)
    (h1 : 0 ≤ r.curveVar) (h2 : r.curveVar < 1)
    (h3 : 0 ≤ r.perpOff) (h4 : r.perpOff < 1)
    (h5 : 0 ≤ r.asym) (h6 : r.asym < 1) :
    0 < distance p0 p2 ∧
    (0.8 ≤ curveVariation r ∧ curveVariation r < 1.2) ∧
    |randomPerpOffset p0 p2 r| ≤ 0.015 * distance p0 p2 ∧
    |asymmetry r| ≤ 0.05 ∧
    (ctrlPoint p0 p2 curvature r).lng = midLng p0 p2 +
      perpLng p0 p2 * (distance p0 p2 * curvature * curveVariation r +
        randomPerpOffset p0 p2 r) + dLng p0 p2 * asymmetry r ∧
    (ctrlPoint p0 p2 curvature r).lat = midLat p0 p2 +
      perpLat p0 p2 * (distance p0 p2 * curvature * curveVariation r +
        randomPerpOffset p0 p2 r) + dLat p0 p2 * asymmetry r := by
  have hd0 : 0 ≤ distance p0 p2 := Real.sqrt_nonneg _
  refine ⟨distance_pos p0 p2 h, ⟨?_, ?_⟩, ?_, ?_, ?_, ?_⟩
  · rw [curveVariation]
    nlinarith
  · rw [curveVariation]
    nlinarith
  · rw [randomPerpOffset]
    have habs : |r.perpOff - 0.5| ≤ 0.5 := abs_le.mpr ⟨by linarith, by linarith⟩
    calc |(r.perpOff - 0.5) * distance p0 p2 * 0.03|
        = |r.perpOff - 0.5| * distance p0 p2 * 0.03 := by
          rw [abs_mul, abs_mul, abs_of_nonneg hd0,
            abs_of_nonneg (by norm_num : (0:ℝ) ≤ 0.03)]
      _ ≤ 0.5 * distance p0 p2 * 0.03 := by nlinarith
      _ = 0.015 * distance p0 p2 := by ring
  · rw [asymmetry]
    exact abs_le.mpr ⟨by linarith, by linarith⟩
  · rw [ctrlPoint, offsetMag]
  · rw [ctrlPoint, offsetMag]

/-- Witness for C5's corrected statement: anchors `(0,0) → (1,0)`, balanced
preset `0.11`, draws `(1/2, 1/2, 1/2, 0, …, 0)`. -/
theorem bezier_control_point_witness :
    ((⟨0, 0⟩ : GeoAnchor ℝ) ≠ ⟨1, 0⟩) ∧ ((0:ℝ) ≤ 1/2) ∧ ((1/2:ℝ) < 1) ∧
    (0 < distance ⟨0, 0⟩ ⟨1, 0⟩ ∧
     (0.8 ≤ curveVariation ⟨1/2, 1/2, 1/2, 0, 0, 0, 0, 0, 0⟩ ∧
      curveVariation ⟨1/2, 1/2, 1/2, 0, 0, 0, 0, 0, 0⟩ < 1.2) ∧
     |randomPerpOffset ⟨0, 0⟩ ⟨1, 0⟩ ⟨1/2, 1/2, 1/2, 0, 0, 0, 0, 0, 0⟩| ≤
       0.015 * distance ⟨0, 0⟩ ⟨1, 0⟩ ∧
     |asymmetry ⟨1/2, 1/2, 1/2, 0, 0, 0, 0, 0, 0⟩| ≤ 0.05 ∧
     (ctrlPoint ⟨0, 0⟩ ⟨1, 0⟩ (11 / 100) ⟨1/2, 1/2, 1/2, 0, 0, 0, 0, 0, 0⟩).lng =
       midLng ⟨0, 0⟩ ⟨1, 0⟩ + perpLng ⟨0, 0⟩ ⟨1, 0⟩ *
         (distance ⟨0, 0⟩ ⟨1, 0⟩ * (11 / 100) *
            curveVariation ⟨1/2, 1/2, 1/2, 0, 0, 0, 0, 0, 0⟩ +
          randomPerpOffset ⟨0, 0⟩ ⟨1, 0⟩ ⟨1/2, 1/2, 1/2, 0, 0, 0, 0, 0, 0⟩) +
       dLng ⟨0, 0⟩ ⟨1, 0⟩ * asymmetry ⟨1/2, 1/2, 1/2, 0, 0, 0, 0, 0, 0⟩ ∧
     (ctrlPoint ⟨0, 0⟩ ⟨1, 0⟩ (11 / 100) ⟨1/2, 1/2, 1/2, 0, 0, 0, 0, 0, 0⟩).lat =
       midLat ⟨0, 0⟩ ⟨1, 0⟩ + perpLat ⟨0, 0⟩ ⟨1, 0⟩ *
         (distance ⟨0, 0⟩ ⟨1, 0⟩ * (11 / 100) *
            curveVariation ⟨1/2, 1/2, 1/2, 0, 0, 0, 0, 0, 0⟩ +
          randomPerpOffset ⟨0, 0⟩ ⟨1, 0⟩ ⟨1/2, 1/2, 1/2, 0, 0, 0, 0, 0, 0⟩) +
       dLat ⟨0, 0⟩ ⟨1, 0⟩ * asymmetry ⟨1/2, 1/2, 1/2, 0, 0, 0, 0, 0, 0⟩) :=
  ⟨by norm_num [GeoAnchor.mk.injEq], by norm_num, by norm_num,
   bezier_control_point_corrected ⟨0, 0⟩ ⟨1, 0⟩ (11 / 100)
     ⟨1/2, 1/2, 1/2, 0, 0, 0, 0, 0, 0⟩ (by norm_num [GeoAnchor.mk.injEq])
     (by norm_num) (by norm_num) (by norm_num) (by norm_num) (by norm_num) (by norm_num)⟩

/-- C5 counterexample: anchors `(0,0) → (1,0)` (chord length 1, perpendicular
`(0,1)`), curvature `0.11`, draws `curveVar = 39/40` (variation 1.19) and
`perpOff = 5/6` (jitter +0.01). The control point's perpendicular component
is `0.11 · 1.19 + 0.01 = 0.1409`, but every decomposition the claim allows —
`0.11 · v + j` with `v ∈ [0.8, 1.0]` and `|j| ≤ 0.015` — is at most `0.125`,
so no claimed decomposition exists. -/
theorem bezier_control_point_counterexample :
    ¬ ∃ v j a : ℝ, 0.8 ≤ v ∧ v ≤ 1 ∧
      |j| ≤ 0.015 * distance ⟨0, 0⟩ ⟨1, 0⟩ ∧ |a| ≤ 0.05 ∧
      (ctrlPoint ⟨0, 0⟩ ⟨1, 0⟩ (11 / 100) ⟨39/40, 1/2, 5/6, 0, 0, 0, 0, 0, 0⟩).lng =
        midLng ⟨0, 0⟩ ⟨1, 0⟩ + perpLng ⟨0, 0⟩ ⟨1, 0⟩ *
          (distance ⟨0, 0⟩ ⟨1, 0⟩ * (11 / 100) * v + j) + dLng ⟨0, 0⟩ ⟨1, 0⟩ * a ∧
      (ctrlPoint ⟨0, 0⟩ ⟨1, 0⟩ (11 / 100) ⟨39/40, 1/2, 5/6, 0, 0, 0, 0, 0, 0⟩).lat =
        midLat ⟨0, 0⟩ ⟨1, 0⟩ + perpLat ⟨0, 0⟩ ⟨1, 0⟩ *
          (distance ⟨0, 0⟩ ⟨1, 0⟩ * (11 / 100) * v + j) + dLat ⟨0, 0⟩ ⟨1, 0⟩ * a := by
  rintro ⟨v, j, a, hv1, hv2, hj, ha, hlng, hlat⟩
  have hperp : perpLat ⟨0, 0⟩ ⟨1, 0⟩ = 1 := by
    rw [perpLat, distance_unit]
    simp [dLng]
  have hctl : (ctrlPoint ⟨0, 0⟩ ⟨1, 0⟩ (11 / 100)
      ⟨39/40, 1/2, 5/6, 0, 0, 0, 0, 0, 0⟩).lat = 1409 / 10000 := by
    rw [ctrlPoint]
    simp only [midLat, offsetMag, randomPerpOffset, curveVariation, asymmetry,
      dLat, hperp, distance_unit]
    norm_num
  rw [hctl, distance_unit] at hlat
  rw [distance_unit] at hj
  simp only [midLat, dLat, hperp] at hlat
  norm_num at hlat hj
  obtain ⟨hj1, hj2⟩ := abs_le.mp hj
  linarith

end

end Human

/-! ## JavaScript number semantics (JSNum): finite values, signed
infinities and NaN, used for the claims about division by zero and NaN
propagation. Finite payloads are exact rationals; negative zero is not
modelled (every division by zero below has a `+0` denominator). -/

/-- A JavaScript number: finite (exact rational payload), `±Infinity`, or
`NaN`. -/
inductive JSNum where
  | num (q : ℚ)
  | posInf
  | negInf
  | nan
deriving DecidableEq, Repr

namespace JSNum

/-- JS unary minus. -/
def neg : JSNum → JSNum
  | num q => num (-q)
  | posInf => negInf
  | negInf => posInf
  | nan => nan

/-- JS addition: NaN absorbs, opposite infinities give NaN. -/
def add : JSNum → JSNum → JSNum
  | nan, _ => nan
  | _, nan => nan
  | posInf, negInf => nan
  | negInf, posInf => nan
  | posInf, _ => posInf
  | _, posInf => posInf
  | negInf, _ => negInf
  | _, negInf => negInf
  | num a, num b => num (a + b)

/-- JS subtraction, `a - b = a + (-b)`. -/
def sub (a b : JSNum) : JSNum := add a (neg b)

/-- JS multiplication: NaN absorbs, `±∞ · 0 = NaN`, signs otherwise. -/
def mul : JSNum → JSNum → JSNum
  | nan, _ => nan
  | _, nan => nan
  | num a, num b => num (a * b)
  | posInf, num b => if b = 0 then nan else if 0 < b then posInf else negInf
  | num a, posInf => if a = 0 then nan else if 0 < a then posInf else negInf
  | negInf, num b => if b = 0 then nan else if 0 < b then negInf else posInf
  | num a, negInf => if a = 0 then nan else if 0 < a then negInf else posInf
  | posInf, posInf => posInf
  | negInf, negInf => posInf
  | posInf, negInf => negInf
  | negInf, posInf => negInf

/-- JS division: NaN absorbs, `0/0 = NaN`, `x/0 = ±∞` for `x ≠ 0` (the
`+0` denominator), `x/±∞ = 0`, `±∞/±∞ = NaN`. -/
def div : JSNum → JSNum → JSNum
  | nan, _ => nan
  | _, nan => nan
  | num a, num b =>
      if b = 0 then (if a = 0 then nan else if 0 < a then posInf else negInf)
      else num (a / b)
  | num _, posInf => num 0
  | num _, negInf => num 0
  | posInf, num b => if 0 ≤ b then posInf else negInf
  | negInf, num b => if 0 ≤ b then negInf else posInf
  | posInf, posInf => nan
  | posInf, negInf => nan
  | negInf, posInf => nan
  | negInf, negInf => nan

/-- JS `Math.min`: NaN if either argument is NaN. -/
def minJs : JSNum → JSNum → JSNum
  | nan, _ => nan
  | _, nan => nan
  | negInf, _ => negInf
  | _, negInf => negInf
  | posInf, b => b
  | a, posInf => a
  | num a, num b => num (min a b)

instance : Neg JSNum := ⟨neg⟩
instance : Add JSNum := ⟨add⟩
instance : Sub JSNum := ⟨sub⟩
instance : Mul JSNum := ⟨mul⟩
instance : Div JSNum := ⟨div⟩

theorem num_add (a b : ℚ) : num a + num b = num (a + b) := rfl

theorem num_sub (a b : ℚ) : num a - num b = num (a - b) := by
  show add (num a) (neg (num b)) = num (a - b)
  rw [neg, add, ← sub_eq_add_neg]

theorem num_mul (a b : ℚ) : num a * num b = num (a * b) := rfl

theorem num_neg (a : ℚ) : -(num a) = num (-a) := rfl

theorem num_div (a b : ℚ) (h : b ≠ 0) : num a / num b = num (a / b) := by
  show div (num a) (num b) = num (a / b)
  rw [div]
  simp [h]

theorem num_div_zero_of_pos (a : ℚ) (h : 0 < a) : num a / num 0 = posInf := by
  show div (num a) (num 0) = posInf
  rw [div]
  simp [h, ne_of_gt h]

theorem zero_div_zero : num 0 / num 0 = nan := by
  show div (num 0) (num 0) = nan
  rw [div]
  simp

theorem nan_add (x : JSNum) : nan + x = nan := by
  show add nan x = nan
  cases x <;> rfl

theorem add_nan (x : JSNum) : x + nan = nan := by
  show add x nan = nan
  cases x <;> rfl

theorem nan_mul (x : JSNum) : nan * x = nan := by
  show mul nan x = nan
  cases x <;> rfl

theorem mul_nan (x : JSNum) : x * nan = nan := by
  show mul x nan = nan
  cases x <;> rfl

theorem nan_div (x : JSNum) : nan / x = nan := by
  show div nan x = nan
  cases x <;> rfl

end JSNum

/-- A rational point lifted into the JSNum domain. -/
def liftAnchor (p : GeoAnchor ℚ) : GeoAnchor JSNum :=
  ⟨JSNum.num p.lng, JSNum.num p.lat⟩

/-- A rational bounding box lifted into the JSNum domain. -/
def liftBBox (b : BBox ℚ) : BBox JSNum :=
  ⟨JSNum.num b.minLng, JSNum.num b.maxLng, JSNum.num b.minLat, JSNum.num b.maxLat⟩

namespace Js

/-- Source local `availableWidth = canvasWidth - margin * 2` under JS
semantics. -/
def availableWidth (canvasWidth margin : JSNum) : JSNum :=
  canvasWidth - margin * JSNum.num 2

/-- Source local `availableHeight`. -/
def availableHeight (canvasHeight margin : JSNum) : JSNum :=
  canvasHeight - margin * JSNum.num 2

/-- Source local `geoWidth = bbox.maxLng - bbox.minLng`. -/
def geoWidth (bbox : BBox JSNum) : JSNum := bbox.maxLng - bbox.minLng

/-- Source local `geoHeight = bbox.maxLat - bbox.minLat`. -/
def geoHeight (bbox : BBox JSNum) : JSNum := bbox.maxLat - bbox.minLat

/-- Source local `scaleX = availableWidth / geoWidth`: the division that
runs with a zero denominator on a degenerate bbox. -/
def scaleX (bbox : BBox JSNum) (canvasWidth margin : JSNum) : JSNum :=
  availableWidth canvasWidth margin / geoWidth bbox

/-- Source local `scaleY = availableHeight / geoHeight`. -/
def scaleY (bbox : BBox JSNum) (canvasHeight margin : JSNum) : JSNum :=
  availableHeight canvasHeight margin / geoHeight bbox

/-- Source local `scale = Math.min(scaleX, scaleY)`. -/
def scale (bbox : BBox JSNum) (canvasWidth canvasHeight margin : JSNum) : JSNum :=
  JSNum.minJs (scaleX bbox canvasWidth margin) (scaleY bbox canvasHeight margin)

/-- Embedding of `calculateProjection` under JS number semantics. -/
def calculateProjection (bbox : BBox JSNum) (canvasWidth canvasHeight margin : JSNum) :
    ProjectionParams JSNum :=
  { bbox := bbox
    width := geoWidth bbox
    height := geoHeight bbox
    offsetX := margin + (availableWidth canvasWidth margin -
      geoWidth bbox * scale bbox canvasWidth canvasHeight margin) / JSNum.num 2
    offsetY := margin + (availableHeight canvasHeight margin -
      geoHeight bbox * scale bbox canvasWidth canvasHeight margin) / JSNum.num 2
    scale := scale bbox canvasWidth canvasHeight margin }

/-- Embedding of `projectToSVG` under JS number semantics. -/
def projectToSVG (lng lat : JSNum) (params : ProjectionParams JSNum) : SVGPoint JSNum :=
  let x := (lng - params.bbox.minLng) / (params.bbox.maxLng - params.bbox.minLng)
  let y := (params.bbox.maxLat - lat) / (params.bbox.maxLat - params.bbox.minLat)
  { x := params.offsetX + x * params.width * params.scale
    y := params.offsetY + y * params.height * params.scale }

end Js

/-- Source `Math.min(...lngs)` over a spread of at least one value (the
callers require ≥ 2 anchors; the JS empty-spread result `Infinity` is never
reached and is modelled as 0). -/
def minList : List ℚ → ℚ
  | [] => 0
  | x :: xs => xs.foldl min x

/-- Source `Math.max(...lngs)`. -/
def maxList : List ℚ → ℚ
  | [] => 0
  | x :: xs => xs.foldl max x

/-- The export/preview bounding-box derivation (exportAsPNG lines 675-690,
artworkpreview lines 54-70): coordinate extrema padded by 10% of the span
on each axis. -/
def deriveBBox (anchors : List (GeoAnchor ℚ)) : BBox ℚ :=
  let lngs := anchors.map (fun a => a.lng)
  let lats := anchors.map (fun a => a.lat)
  let minLng := minList lngs
  let maxLng := maxList lngs
  let minLat := minList lats
  let maxLat := maxList lats
  let lngPadding := (maxLng - minLng) * 0.1
  let latPadding := (maxLat - minLat) * 0.1
  { minLng := minLng - lngPadding
    maxLng := maxLng + lngPadding
    minLat := minLat - latPadding
    maxLat := maxLat + latPadding }

theorem foldl_min_const (xs : List ℚ) (x c : ℚ) (hxs : ∀ y ∈ xs, y = c) (hx : x = c) :
    xs.foldl min x = c := by
  induction xs generalizing x with
  | nil => exact hx
  | cons y ys ih =>
    rw [List.foldl_cons]
    refine ih _ ?_ ?_
    · intro z hz
      exact hxs z (List.mem_cons_of_mem y hz)
    · rw [hxs y (List.mem_cons_self y ys), hx]
      exact min_self c

theorem foldl_max_const (xs : List ℚ) (x c : ℚ) (hxs : ∀ y ∈ xs, y = c) (hx : x = c) :
    xs.foldl max x = c := by
  induction xs generalizing x with
  | nil => exact hx
  | cons y ys ih =>
    rw [List.foldl_cons]
    refine ih _ ?_ ?_
    · intro z hz
      exact hxs z (List.mem_cons_of_mem y hz)
    · rw [hxs y (List.mem_cons_self y ys), hx]
      exact max_self c

theorem minList_const (l : List ℚ) (c : ℚ) (hne : l ≠ []) (h : ∀ y ∈ l, y = c) :
    minList l = c := by
  rcases l with _ | ⟨x, xs⟩
  · exact absurd rfl hne
  · rw [minList]
    exact foldl_min_const xs x c
      (fun y hy => h y (List.mem_cons_of_mem x hy)) (h x (List.mem_cons_self x xs))

theorem maxList_const (l : List ℚ) (c : ℚ) (hne : l ≠ []) (h : ∀ y ∈ l, y = c) :
    maxList l = c := by
  rcases l with _ | ⟨x, xs⟩
  · exact absurd rfl hne
  · rw [maxList]
    exact foldl_max_const xs x c
      (fun y hy => h y (List.mem_cons_of_mem x hy)) (h x (List.mem_cons_self x xs))

/-- Shared computation for C4: on a bounding box whose longitude span is
zero, the per-axis scale divides by zero (giving `+∞` when the available
width is positive) and the projected `x` of any point at the shared
longitude is `0/0 · … = NaN`, whatever the other parameters hold. -/
theorem project_degenerate_nan (b : BBox ℚ) (c : ℚ) (hbmin : b.minLng = c)
    (hbmax : b.maxLng = c) (W H m : ℚ) (hW : 2 * m < W) (lat : ℚ) :
    Js.scaleX (liftBBox b) (JSNum.num W) (JSNum.num m) = JSNum.posInf ∧
    (Js.projectToSVG (JSNum.num c) (JSNum.num lat)
      (Js.calculateProjection (liftBBox b) (JSNum.num W) (JSNum.num H)
        (JSNum.num m))).x = JSNum.nan := by
  have hgw : Js.geoWidth (liftBBox b) = JSNum.num 0 := by
    rw [Js.geoWidth, liftBBox]
    simp only [hbmin, hbmax, JSNum.num_sub, sub_self]
  constructor
  · rw [Js.scaleX, hgw, Js.availableWidth, JSNum.num_mul, JSNum.num_sub]
    exact JSNum.num_div_zero_of_pos _ (by linarith)
  · rw [Js.projectToSVG]
    simp only [Js.calculateProjection]
    rw [liftBBox]
    simp only [hbmin, hbmax, JSNum.num_sub, sub_self, JSNum.zero_div_zero,
      JSNum.nan_mul, JSNum.add_nan]

/-- Shared computation for C4, latitude axis: on a bounding box whose
latitude span is zero, `scaleY` divides the positive available height by
zero (giving `+∞`) and the projected `y` of any point at the shared
latitude is `0/0 · … = NaN`, whatever the other parameters hold. -/
theorem project_degenerate_nan_lat (b : BBox ℚ) (c : ℚ) (hbmin : b.minLat = c)
    (hbmax : b.maxLat = c) (W H m : ℚ) (hH : 2 * m < H) (lng : ℚ) :
    Js.scaleY (liftBBox b) (JSNum.num H) (JSNum.num m) = JSNum.posInf ∧
    (Js.projectToSVG (JSNum.num lng) (JSNum.num c)
      (Js.calculateProjection (liftBBox b) (JSNum.num W) (JSNum.num H)
        (JSNum.num m))).y = JSNum.nan := by
  have hgh : Js.geoHeight (liftBBox b) = JSNum.num 0 := by
    rw [Js.geoHeight, liftBBox]
    simp only [hbmin, hbmax, JSNum.num_sub, sub_self]
  constructor
  · rw [Js.scaleY, hgh, Js.availableHeight, JSNum.num_mul, JSNum.num_sub]
    exact JSNum.num_div_zero_of_pos _ (by linarith)
  · rw [Js.projectToSVG]
    simp only [Js.calculateProjection]
    rw [liftBBox]
    simp only [hbmin, hbmax, JSNum.num_sub, sub_self, JSNum.zero_div_zero,
      JSNum.nan_mul, JSNum.add_nan]

/-- On anchors sharing longitude `c`, the derived bounding box's longitude
bounds are both `c` (zero span, zero padding). -/
theorem deriveBBox_lng_const (anchors : List (GeoAnchor ℚ)) (c : ℚ)
    (hne : anchors ≠ []) (hall : ∀ p ∈ anchors, p.lng = c) :
    (deriveBBox anchors).minLng = c ∧ (deriveBBox anchors).maxLng = c := by
  have hmapne : anchors.map (fun a => a.lng) ≠ [] := by
    simpa using hne
  have hminl : minList (anchors.map (fun a => a.lng)) = c := by
    refine minList_const _ c hmapne ?_
    intro y hy
    obtain ⟨p, hp, rfl⟩ := List.mem_map.mp hy
    exact hall p hp
  have hmaxl : maxList (anchors.map (fun a => a.lng)) = c := by
    refine maxList_const _ c hmapne ?_
    intro y hy
    obtain ⟨p, hp, rfl⟩ := List.mem_map.mp hy
    exact hall p hp
  constructor <;> (rw [deriveBBox]; simp only [hminl, hmaxl]; ring)

/-- On anchors sharing latitude `c`, the derived bounding box's latitude
bounds are both `c` (zero span, zero padding). -/
theorem deriveBBox_lat_const (anchors : List (GeoAnchor ℚ)) (c : ℚ)
    (hne : anchors ≠ []) (hall : ∀ p ∈ anchors, p.lat = c) :
    (deriveBBox anchors).minLat = c ∧ (deriveBBox anchors).maxLat = c := by
  have hmapne : anchors.map (fun a => a.lat) ≠ [] := by
    simpa using hne
  have hminl : minList (anchors.map (fun a => a.lat)) = c := by
    refine minList_const _ c hmapne ?_
    intro y hy
    obtain ⟨p, hp, rfl⟩ := List.mem_map.mp hy
    exact hall p hp
  have hmaxl : maxList (anchors.map (fun a => a.lat)) = c := by
    refine maxList_const _ c hmapne ?_
    intro y hy
    obtain ⟨p, hp, rfl⟩ := List.mem_map.mp hy
    exact hall p hp
  constructor <;> (rw [deriveBBox]; simp only [hminl, hmaxl]; ring)

/-- C4 (corrected), both axes: an anchor set whose anchors all share the
same longitude derives a bounding box with zero longitude span (the 10%
padding degenerates to 0); the implementation has no guard —
`calculateProjection`'s `scaleX` divides the positive available width by
that zero span, giving `+∞` under JS semantics, and `projectToSVG` maps
every anchor to an `x` coordinate of `NaN` (`0/0`). Symmetrically, anchors
all sharing the same latitude give a zero latitude span, `scaleY = +∞`,
and `y = NaN` for every anchor. -/
theorem degenerate_bbox_corrected :
    (∀ (anchors : List (GeoAnchor ℚ)) (c W H m : ℚ), anchors ≠ [] →
      (∀ p ∈ anchors, p.lng = c) → 2 * m < W →
      (deriveBBox anchors).minLng = c ∧ (deriveBBox anchors).maxLng = c ∧
      Js.scaleX (liftBBox (deriveBBox anchors)) (JSNum.num W) (JSNum.num m) =
        JSNum.posInf ∧
      ∀ p ∈ anchors,
        (Js.projectToSVG (JSNum.num p.lng) (JSNum.num p.lat)
          (Js.calculateProjection (liftBBox (deriveBBox anchors)) (JSNum.num W)
            (JSNum.num H) (JSNum.num m))).x = JSNum.nan) ∧
    (∀ (anchors : List (GeoAnchor ℚ)) (c W H m : ℚ), anchors ≠ [] →
      (∀ p ∈ anchors, p.lat = c) → 2 * m < H →
      (deriveBBox anchors).minLat = c ∧ (deriveBBox anchors).maxLat = c ∧
      Js.scaleY (liftBBox (deriveBBox anchors)) (JSNum.num H) (JSNum.num m) =
        JSNum.posInf ∧
      ∀ p ∈ anchors,
        (Js.projectToSVG (JSNum.num p.lng) (JSNum.num p.lat)
          (Js.calculateProjection (liftBBox (deriveBBox anchors)) (JSNum.num W)
            (JSNum.num H) (JSNum.num m))).y = JSNum.nan) := by
  constructor
  · intro anchors c W H m hne hall hW
    obtain ⟨hbmin, hbmax⟩ := deriveBBox_lng_const anchors c hne hall
    obtain ⟨hscale, -⟩ := project_degenerate_nan (deriveBBox anchors) c hbmin hbmax
      W H m hW 0
    refine ⟨hbmin, hbmax, hscale, ?_⟩
    intro p hp
    rw [hall p hp]
    exact (project_degenerate_nan (deriveBBox anchors) c hbmin hbmax W H m hW p.lat).2
  · intro anchors c W H m hne hall hH
    obtain ⟨hbmin, hbmax⟩ := deriveBBox_lat_const anchors c hne hall
    obtain ⟨hscale, -⟩ := project_degenerate_nan_lat (deriveBBox anchors) c hbmin hbmax
      W H m hH 0
    refine ⟨hbmin, hbmax, hscale, ?_⟩
    intro p hp
    rw [hall p hp]
    exact (project_degenerate_nan_lat (deriveBBox anchors) c hbmin hbmax W H m hH
      p.lng).2

/-- Witness for C4's corrected statement, exercising both halves: anchors
`[(0,0), (0,5)]` on the meridian `lng = 0` for the longitude half, anchors
`[(0,0), (5,0)]` on the equator `lat = 0` for the latitude half, canvas
`100 × 100`, margin 10. -/
theorem degenerate_bbox_witness :
    (([⟨0, 0⟩, ⟨0, 5⟩] : List (GeoAnchor ℚ)) ≠ []) ∧
    ((2 : ℚ) * 10 < 100) ∧
    ((deriveBBox [⟨0, 0⟩, ⟨0, 5⟩]).minLng = 0 ∧
     (deriveBBox [⟨0, 0⟩, ⟨0, 5⟩]).maxLng = 0 ∧
     Js.scaleX (liftBBox (deriveBBox [⟨0, 0⟩, ⟨0, 5⟩])) (JSNum.num 100)
       (JSNum.num 10) = JSNum.posInf ∧
     ∀ p ∈ ([⟨0, 0⟩, ⟨0, 5⟩] : List (GeoAnchor ℚ)),
       (Js.projectToSVG (JSNum.num p.lng) (JSNum.num p.lat)
         (Js.calculateProjection (liftBBox (deriveBBox [⟨0, 0⟩, ⟨0, 5⟩]))
           (JSNum.num 100) (JSNum.num 100) (JSNum.num 10))).x = JSNum.nan) ∧
    (([⟨0, 0⟩, ⟨5, 0⟩] : List (GeoAnchor ℚ)) ≠ []) ∧
    ((deriveBBox [⟨0, 0⟩, ⟨5, 0⟩]).minLat = 0 ∧
     (deriveBBox [⟨0, 0⟩, ⟨5, 0⟩]).maxLat = 0 ∧
     Js.scaleY (liftBBox (deriveBBox [⟨0, 0⟩, ⟨5, 0⟩])) (JSNum.num 100)
       (JSNum.num 10) = JSNum.posInf ∧
     ∀ p ∈ ([⟨0, 0⟩, ⟨5, 0⟩] : List (GeoAnchor ℚ)),
       (Js.projectToSVG (JSNum.num p.lng) (JSNum.num p.lat)
         (Js.calculateProjection (liftBBox (deriveBBox [⟨0, 0⟩, ⟨5, 0⟩]))
           (JSNum.num 100) (JSNum.num 100) (JSNum.num 10))).y = JSNum.nan) :=
  ⟨by simp, by norm_num,
   degenerate_bbox_corrected.1 [⟨0, 0⟩, ⟨0, 5⟩] 0 100 100 10 (by simp)
     (by intro p hp; rcases List.mem_cons.mp hp with h | h
         · rw [h]
         · rw [List.mem_singleton.mp h]) (by norm_num),
   by simp,
   degenerate_bbox_corrected.2 [⟨0, 0⟩, ⟨5, 0⟩] 0 100 100 10 (by simp)
     (by intro p hp; rcases List.mem_cons.mp hp with h | h
         · rw [h]
         · rw [List.mem_singleton.mp h]) (by norm_num)⟩

/-- C4 counterexample: for the concrete all-same-longitude anchor set
`[(0,0), (0,5)]` on a `100 × 100` canvas with margin 10, `projectToSVG`
yields `x = NaN` — not the finite coordinate the claim asserts the
implementation guards for. -/
theorem degenerate_bbox_counterexample :
    (Js.projectToSVG (JSNum.num 0) (JSNum.num 0)
      (Js.calculateProjection (liftBBox (deriveBBox [⟨0, 0⟩, ⟨0, 5⟩]))
        (JSNum.num 100) (JSNum.num 100) (JSNum.num 10))).x = JSNum.nan := by
  have hbmin : (deriveBBox [(⟨0, 0⟩ : GeoAnchor ℚ), ⟨0, 5⟩]).minLng = 0 := by
    rw [deriveBBox]
    norm_num [minList, maxList]
  have hbmax : (deriveBBox [(⟨0, 0⟩ : GeoAnchor ℚ), ⟨0, 5⟩]).maxLng = 0 := by
    rw [deriveBBox]
    norm_num [minList, maxList]
  exact (project_degenerate_nan _ 0 hbmin hbmax 100 100 10 (by norm_num) 0).2

/-- The JS `Math` environment the humanizer calls into: `Math.sqrt`,
`Math.sin` and `Math.PI` as host functions over JS numbers. -/
structure MathEnv where
  sqrtFn : JSNum → JSNum
  sinFn : JSNum → JSNum
  piVal : JSNum

/-- The nine random draws lifted into the JSNum domain (`Math.random()`
always returns a finite number). -/
def liftRand (r : Rand ℚ) : Rand JSNum :=
  ⟨JSNum.num r.curveVar, JSNum.num r.asym, JSNum.num r.perpOff,
   JSNum.num r.f1, JSNum.num r.f2, JSNum.num r.f3,
   JSNum.num r.ph1, JSNum.num r.ph2, JSNum.num r.ph3⟩

namespace HumanJs

/-- Source local `dLng` under JS semantics. -/
def dLng (p0 p2 : GeoAnchor JSNum) : JSNum := p2.lng - p0.lng

/-- Source local `dLat` under JS semantics. -/
def dLat (p0 p2 : GeoAnchor JSNum) : JSNum := p2.lat - p0.lat

/-- Source local `distance = Math.sqrt(dLng*dLng + dLat*dLat)`. -/
def distance (env : MathEnv) (p0 p2 : GeoAnchor JSNum) : JSNum :=
  env.sqrtFn (dLng p0 p2 * dLng p0 p2 + dLat p0 p2 * dLat p0 p2)

/-- Source local `perpLng = -dLat / distance` — the division that produces
NaN on a zero-length chord. -/
def perpLng (env : MathEnv) (p0 p2 : GeoAnchor JSNum) : JSNum :=
  -dLat p0 p2 / distance env p0 p2

/-- Source local `perpLat = dLng / distance`. -/
def perpLat (env : MathEnv) (p0 p2 : GeoAnchor JSNum) : JSNum :=
  dLng p0 p2 / distance env p0 p2

/-- Source local `midLng`. -/
def midLng (p0 p2 : GeoAnchor JSNum) : JSNum := (p0.lng + p2.lng) / JSNum.num 2

/-- Source local `midLat`. -/
def midLat (p0 p2 : GeoAnchor JSNum) : JSNum := (p0.lat + p2.lat) / JSNum.num 2

/-- Source local `curveVariation`. -/
def curveVariation (r : Rand JSNum) : JSNum :=
  JSNum.num 0.8 + r.curveVar * JSNum.num 0.4

/-- Source local `offset = distance * curvature * curveVariation`. -/
def offsetMag (env : MathEnv) (p0 p2 : GeoAnchor JSNum) (curvature : JSNum)
    (r : Rand JSNum) : JSNum :=
  distance env p0 p2 * curvature * curveVariation r

/-- Source local `asymmetry`. -/
def asymmetry (r : Rand JSNum) : JSNum :=
  JSNum.num (-0.05) + r.asym * JSNum.num 0.1

/-- Source local `randomPerpOffset`. -/
def randomPerpOffset (env : MathEnv) (p0 p2 : GeoAnchor JSNum) (r : Rand JSNum) : JSNum :=
  (r.perpOff - JSNum.num 0.5) * distance env p0 p2 * JSNum.num 0.03

/-- Source local `p1`, the control point, under JS semantics. -/
def ctrlPoint (env : MathEnv) (p0 p2 : GeoAnchor JSNum) (curvature : JSNum)
    (r : Rand JSNum) : GeoAnchor JSNum :=
  { lng := midLng p0 p2 +
      perpLng env p0 p2 * (offsetMag env p0 p2 curvature r + randomPerpOffset env p0 p2 r) +
      dLng p0 p2 * asymmetry r
    lat := midLat p0 p2 +
      perpLat env p0 p2 * (offsetMag env p0 p2 curvature r + randomPerpOffset env p0 p2 r) +
      dLat p0 p2 * asymmetry r }

/-- One Bezier sample at `t = i / 100`, under JS semantics. -/
def pointAt (env : MathEnv) (p0 p2 : GeoAnchor JSNum) (curvature : JSNum)
    (r : Rand JSNum) (i : ℕ) : GeoAnchor JSNum :=
  let t := JSNum.num i / JSNum.num 100
  let mt := JSNum.num 1 - t
  { lng := mt * mt * p0.lng +
      JSNum.num 2 * mt * t * (ctrlPoint env p0 p2 curvature r).lng + t * t * p2.lng
    lat := mt * mt * p0.lat +
      JSNum.num 2 * mt * t * (ctrlPoint env p0 p2 curvature r).lat + t * t * p2.lat }

/-- Source array `points` under JS semantics. -/
def points (env : MathEnv) (p0 p2 : GeoAnchor JSNum) (curvature : JSNum)
    (r : Rand JSNum) : List (GeoAnchor JSNum) :=
  (List.range 101).map (pointAt env p0 p2 curvature r)

/-- Source local `baseAmplitude = distance * 0.008`. -/
def baseAmplitude (env : MathEnv) (p0 p2 : GeoAnchor JSNum) : JSNum :=
  distance env p0 p2 * JSNum.num 0.008

/-- Source local `freq1`. -/
def freq1 (r : Rand JSNum) : JSNum := JSNum.num 3 + r.f1 * JSNum.num 2

/-- Source local `freq2`. -/
def freq2 (r : Rand JSNum) : JSNum := JSNum.num 8 + r.f2 * JSNum.num 4

/-- Source local `freq3`. -/
def freq3 (r : Rand JSNum) : JSNum := JSNum.num 15 + r.f3 * JSNum.num 5

/-- Source local `phase1 = Math.random() * Math.PI * 2`. -/
def phase1 (env : MathEnv) (r : Rand JSNum) : JSNum := r.ph1 * env.piVal * JSNum.num 2

/-- Source local `phase2`. -/
def phase2 (env : MathEnv) (r : Rand JSNum) : JSNum := r.ph2 * env.piVal * JSNum.num 2

/-- Source local `phase3`. -/
def phase3 (env : MathEnv) (r : Rand JSNum) : JSNum := r.ph3 * env.piVal * JSNum.num 2

/-- Source local `totalNoise` at noise parameter `t`, under JS semantics. -/
def totalNoise (env : MathEnv) (p0 p2 : GeoAnchor JSNum) (r : Rand JSNum)
    (t : JSNum) : JSNum :=
  env.sinFn (t * env.piVal * freq1 r + phase1 env r) * baseAmplitude env p0 p2 +
  env.sinFn (t * env.piVal * freq2 r + phase2 env r) * baseAmplitude env p0 p2 * JSNum.num 0.5 +
  env.sinFn (t * env.piVal * freq3 r + phase3 env r) * baseAmplitude env p0 p2 * JSNum.num 0.25

/-- Source array `humanizedPoints` under JS semantics, noise parameter
`index / points.length`. -/
def humanizedPoints (env : MathEnv) (p0 p2 : GeoAnchor JSNum) (curvature : JSNum)
    (r : Rand JSNum) : List (GeoAnchor JSNum) :=
  (points env p0 p2 curvature r).mapIdx (fun index point =>
    { lng := point.lng + perpLng env p0 p2 *
        totalNoise env p0 p2 r
          (JSNum.num index / JSNum.num ((points env p0 p2 curvature r).length))
      lat := point.lat + perpLat env p0 p2 *
        totalNoise env p0 p2 r
          (JSNum.num index / JSNum.num ((points env p0 p2 curvature r).length)) })

/-- The all-zero JS anchor, used as the (never-reached) list-access default. -/
def zeroPtJs : GeoAnchor JSNum := ⟨JSNum.num 0, JSNum.num 0⟩

/-- One step of the smoothing loop under JS semantics. -/
def smoothAt (l : List (GeoAnchor JSNum)) (i : ℕ) : GeoAnchor JSNum :=
  if i < 2 ∨ l.length - 2 ≤ i then l.getD i zeroPtJs
  else
    { lng := ((l.getD (i - 2) zeroPtJs).lng + (l.getD (i - 1) zeroPtJs).lng +
        (l.getD i zeroPtJs).lng + (l.getD (i + 1) zeroPtJs).lng +
        (l.getD (i + 2) zeroPtJs).lng) / JSNum.num 5
      lat := ((l.getD (i - 2) zeroPtJs).lat + (l.getD (i - 1) zeroPtJs).lat +
        (l.getD i zeroPtJs).lat + (l.getD (i + 1) zeroPtJs).lat +
        (l.getD (i + 2) zeroPtJs).lat) / JSNum.num 5 }

/-- Embedding of `generateHumanizedPath` under JS number semantics (the
identical code is `generatePathSegment` in the export routine and the
preview component, up to its final serialization of the same point list). -/
def generateHumanizedPath (env : MathEnv) (p0 p2 : GeoAnchor JSNum)
    (curvature : JSNum) (r : Rand JSNum) : List (GeoAnchor JSNum) :=
  (List.range (humanizedPoints env p0 p2 curvature r).length).map
    (smoothAt (humanizedPoints env p0 p2 curvature r))

theorem points_length_js (env : MathEnv) (p0 p2 : GeoAnchor JSNum) (curvature : JSNum)
    (r : Rand JSNum) : (points env p0 p2 curvature r).length = 101 := by
  simp [points]

theorem humanizedPoints_length_js (env : MathEnv) (p0 p2 : GeoAnchor JSNum)
    (curvature : JSNum) (r : Rand JSNum) :
    (humanizedPoints env p0 p2 curvature r).length = 101 := by
  simp [humanizedPoints, List.length_mapIdx, points_length_js]

/-- On a zero-length chord the perpendicular components are `0/0 = NaN`. -/
theorem perp_nan (env : MathEnv) (p : GeoAnchor ℚ)
    (hsqrt : env.sqrtFn (JSNum.num 0) = JSNum.num 0) :
    perpLng env (liftAnchor p) (liftAnchor p) = JSNum.nan ∧
    perpLat env (liftAnchor p) (liftAnchor p) = JSNum.nan := by
  have hdLng : dLng (liftAnchor p) (liftAnchor p) = JSNum.num 0 := by
    rw [dLng, liftAnchor, JSNum.num_sub, sub_self]
  have hdLat : dLat (liftAnchor p) (liftAnchor p) = JSNum.num 0 := by
    rw [dLat, liftAnchor, JSNum.num_sub, sub_self]
  have hdist : distance env (liftAnchor p) (liftAnchor p) = JSNum.num 0 := by
    rw [distance, hdLng, hdLat]
    simp only [JSNum.num_mul, JSNum.num_add]
    norm_num
    exact hsqrt
  constructor
  · rw [perpLng, hdLat, hdist, JSNum.num_neg, neg_zero]
    exact JSNum.zero_div_zero
  · rw [perpLat, hdLng, hdist]
    exact JSNum.zero_div_zero

/-- Every noisy sample of a degenerate (zero-chord) segment has NaN in both
coordinates: the NaN perpendicular poisons each point. -/
theorem humanizedPoints_nan (env : MathEnv) (p : GeoAnchor ℚ) (curvature : JSNum)
    (r : Rand JSNum) (hsqrt : env.sqrtFn (JSNum.num 0) = JSNum.num 0)
    {i : ℕ} (hi : i < 101) :
    ((humanizedPoints env (liftAnchor p) (liftAnchor p) curvature r).getD i zeroPtJs).lng =
      JSNum.nan ∧
    ((humanizedPoints env (liftAnchor p) (liftAnchor p) curvature r).getD i zeroPtJs).lat =
      JSNum.nan := by
  obtain ⟨hpLng, hpLat⟩ := perp_nan env p hsqrt
  rw [humanizedPoints, getD_mapIdx _ _ _ zeroPtJs (by rw [points_length_js]; omega)]
  constructor
  · simp only [hpLng, JSNum.nan_mul, JSNum.add_nan]
  · simp only [hpLat, JSNum.nan_mul, JSNum.add_nan]

/-- C10: generating a humanized segment from an anchor to itself divides
the perpendicular components by the zero chord length without any guard
(`Math.sqrt(0) = 0`, then `-0/0` and `0/0` are NaN), and the NaN propagates
through the Bezier blend, the noise displacement and the moving average, so
the returned segment still has its full 101 points — no error is raised —
and every one of them has NaN longitude and NaN latitude. -/
theorem degenerate_segment_nan (env : MathEnv) (p : GeoAnchor ℚ) (curvature : ℚ)
    (r : Rand ℚ) (hsqrt : env.sqrtFn (JSNum.num 0) = JSNum.num 0) :
    (generateHumanizedPath env (liftAnchor p) (liftAnchor p) (JSNum.num curvature)
      (liftRand r)).length = 101 ∧
    ∀ q ∈ generateHumanizedPath env (liftAnchor p) (liftAnchor p) (JSNum.num curvature)
      (liftRand r), q.lng = JSNum.nan ∧ q.lat = JSNum.nan := by
  have hlen := humanizedPoints_length_js env (liftAnchor p) (liftAnchor p)
    (JSNum.num curvature) (liftRand r)
  constructor
  · simp [generateHumanizedPath, hlen]
  · intro q hq
    rw [generateHumanizedPath] at hq
    obtain ⟨i, hi, rfl⟩ := List.mem_map.mp hq
    rw [List.mem_range, hlen] at hi
    rw [smoothAt]
    by_cases hcase : i < 2 ∨
        (humanizedPoints env (liftAnchor p) (liftAnchor p) (JSNum.num curvature)
          (liftRand r)).length - 2 ≤ i
    · rw [if_pos hcase]
      exact humanizedPoints_nan env p (JSNum.num curvature) (liftRand r) hsqrt hi
    · rw [if_neg hcase]
      have h0 := (humanizedPoints_nan env p (JSNum.num curvature) (liftRand r) hsqrt
        (show i - 2 < 101 by omega))
      constructor
      · simp only [h0.1, JSNum.nan_add, JSNum.nan_div]
      · simp only [h0.2, JSNum.nan_add, JSNum.nan_div]

/-- Witness for C10: the anchor `(3, 4)`, balanced curvature `0.11`, all
draws `1/2`, and a Math environment with `sqrt 0 = 0`. -/
theorem degenerate_segment_nan_witness :
    ((MathEnv.mk (fun _ => JSNum.num 0) (fun _ => JSNum.num 0) (JSNum.num 3)).sqrtFn
      (JSNum.num 0) = JSNum.num 0) ∧
    ((generateHumanizedPath (MathEnv.mk (fun _ => JSNum.num 0) (fun _ => JSNum.num 0)
        (JSNum.num 3)) (liftAnchor ⟨3, 4⟩) (liftAnchor ⟨3, 4⟩) (JSNum.num (11 / 100))
        (liftRand ⟨1/2, 1/2, 1/2, 1/2, 1/2, 1/2, 1/2, 1/2, 1/2⟩)).length = 101 ∧
     ∀ q ∈ generateHumanizedPath (MathEnv.mk (fun _ => JSNum.num 0) (fun _ => JSNum.num 0)
        (JSNum.num 3)) (liftAnchor ⟨3, 4⟩) (liftAnchor ⟨3, 4⟩) (JSNum.num (11 / 100))
        (liftRand ⟨1/2, 1/2, 1/2, 1/2, 1/2, 1/2, 1/2, 1/2, 1/2⟩),
       q.lng = JSNum.nan ∧ q.lat = JSNum.nan) :=
  ⟨rfl,
   degenerate_segment_nan (MathEnv.mk (fun _ => JSNum.num 0) (fun _ => JSNum.num 0)
      (JSNum.num 3)) ⟨3, 4⟩ (11 / 100) ⟨1/2, 1/2, 1/2, 1/2, 1/2, 1/2, 1/2, 1/2, 1/2⟩ rfl⟩

end HumanJs

end Paths
